import Mathlib

/-!
# RouteSafe Navigator — verification of the route-client / renderer pipeline

Shallow embedding of the RouteSafe Navigator front-end sources:
`src/main.js`, `src/frontend/main.js`, `src/unnamed/part_000` (FastAPI backend
stub and the postcode-normalising copy), `src/unnamed/part_001` and
`src/unnamed/part_003` (further front-end copies).

Modelling conventions:
* JSON values are an inductive `Json`; JavaScript `undefined` is collapsed
  into `Json.null` (the two are interchangeable for every operation the
  sources perform on response data: `??`, `||`, `!= null`, truthiness and
  guarded property access).
* JavaScript numbers inside JSON are exact rationals `ℚ` (JSON literals are
  finite decimals).  Form-field parsing, which can produce `NaN`/`Infinity`,
  uses the separate type `JSNum`.
* Code that can throw a `TypeError` (e.g. `x.toFixed(1)` on a non-number) is
  embedded in `Except JsErr`.
* The Leaflet map widget is modelled through the four primitives the spec
  names: draw polyline, draw point marker, fit view to bounds, clear layer.
  `L.latLng` validation is modelled as requiring numeric coordinates
  (Leaflet additionally accepts numeric strings via `+` coercion; no theorem
  below touches such inputs).
-/

/-- A JSON value.  JS `undefined` is collapsed into `null` (see header). -/
inductive Json where
  | null
  | bool (b : Bool)
  | num (q : ℚ)
  | str (s : String)
  | arr (elems : List Json)
  | obj (fields : List (String × Json))

def Json.isNum : Json → Bool
  | .num _ => true
  | _ => false

def Json.isStr : Json → Bool
  | .str _ => true
  | _ => false

def Json.isArr : Json → Bool
  | .arr _ => true
  | _ => false

def Json.isObj : Json → Bool
  | .obj _ => true
  | _ => false

/-- JS truthiness of a JSON value (`NaN` cannot occur inside parsed JSON). -/
def truthy : Json → Bool
  | .null => false
  | .bool b => b
  | .num q => q != 0
  | .str s => s != ""
  | .arr _ => true
  | .obj _ => true

/-- Property access `v.k`: object lookup, anything else yields
`undefined`/`null`.  (Accessing a property of a primitive does not throw in
JS; it yields `undefined`, collapsed here into `null`.) -/
def jsGet : Json → String → Json
  | .obj fields, k =>
    match fields.lookup k with
    | some v => v
    | none => .null
  | _, _ => .null

/-- `a || b` on JSON values. -/
def jsOr (a b : Json) : Json := if truthy a then a else b

/-- `a ?? b` on JSON values (`undefined` collapsed into `null`). -/
def jsNullish (a b : Json) : Json :=
  match a with
  | .null => b
  | v => v

/-- A thrown JS exception, as far as the claims need to distinguish causes. -/
inductive JsErr where
  | typeError
  | leafletError
deriving DecidableEq

/-- `Number.prototype.toFixed d` modelled on exact rationals: round half away
from zero at `d` decimals, print with exactly `d` fractional digits (none,
and no decimal point, for `d = 0`).  This abstracts the binary-double tie
behaviour of the real `toFixed`; every concrete value used below is exact. -/
def jsToFixed (d : ℕ) (q : ℚ) : String :=
  let p : ℚ := (10 : ℚ) ^ d
  let n : ℤ := if 0 ≤ q then (q * p + 1/2).floor else -((-q * p + 1/2).floor)
  let m : ℕ := n.natAbs
  let ip : ℕ := m / 10 ^ d
  let fp : ℕ := m % 10 ^ d
  let fracDigits := Nat.repr fp
  let fracPadded :=
    String.mk (List.replicate (d - fracDigits.length) (Char.ofNat 48)) ++ fracDigits
  (if n < 0 then "-" else "") ++ Nat.repr ip ++
    (if d = 0 then "" else "." ++ fracPadded)

/-- `Math.round` on an exact rational: half rounds toward `+∞`. -/
def jsRound (q : ℚ) : ℤ := (q + 1/2).floor

/-- Least number of decimals that writes `q` exactly (up to 40), if any. -/
def qDecDigits (q : ℚ) : Option ℕ :=
  (List.range 40).find? fun k => (q * (10 : ℚ) ^ k).den = 1

/-- JS number-to-string coercion, restricted to rationals with a finite
decimal expansion (shortest form), as JS prints such doubles.  Other
rationals (never produced by the embedded code) print as `num/den`. -/
def qToString (q : ℚ) : String :=
  match qDecDigits q with
  | some k => jsToFixed k q
  | none => toString q.num ++ "/" ++ toString q.den

/-- JSON string escaping for `JSON.stringify` (the common escapes; exotic
control characters are passed through, which no theorem below exercises). -/
def jsonEscapeChar (c : Char) : String :=
  if c = Char.ofNat 34 then "\\\""
  else if c = Char.ofNat 92 then "\\\\"
  else if c = Char.ofNat 10 then "\\n"
  else if c = Char.ofNat 13 then "\\r"
  else if c = Char.ofNat 9 then "\\t"
  else String.mk [c]

def jsonQuote (s : String) : String :=
  "\"" ++ String.join (s.data.map jsonEscapeChar) ++ "\""

mutual

/-- `JSON.stringify` (cycles are impossible in `Json`). -/
def jsonStringify : Json → String
  | .null => "null"
  | .bool b => cond b "true" "false"
  | .num q => qToString q
  | .str s => jsonQuote s
  | .arr xs => "[" ++ jsonStringifyList xs ++ "]"
  | .obj fs => "\x7b" ++ jsonStringifyFields fs ++ "\x7d"

def jsonStringifyList : List Json → String
  | [] => ""
  | [x] => jsonStringify x
  | x :: y :: xs => jsonStringify x ++ "," ++ jsonStringifyList (y :: xs)

def jsonStringifyFields : List (String × Json) → String
  | [] => ""
  | [(k, v)] => jsonQuote k ++ ":" ++ jsonStringify v
  | (k, v) :: f :: fs =>
    jsonQuote k ++ ":" ++ jsonStringify v ++ "," ++ jsonStringifyFields (f :: fs)

end

mutual

/-- `String(v)` coercion, as applied by `textContent = v` and template
strings. -/
def jsStringCoerce : Json → String
  | .null => "null"
  | .bool b => cond b "true" "false"
  | .num q => qToString q
  | .str s => s
  | .arr xs => jsCoerceJoin xs
  | .obj _ => "[object Object]"

def jsCoerceJoin : List Json → String
  | [] => ""
  | [x] => jsCoerceElem x
  | x :: y :: xs => jsCoerceElem x ++ "," ++ jsCoerceJoin (y :: xs)

/-- Array elements that are `null`/`undefined` join as the empty string. -/
def jsCoerceElem : Json → String
  | .null => ""
  | .bool b => cond b "true" "false"
  | .num q => qToString q
  | .str s => s
  | .arr xs => jsCoerceJoin xs
  | .obj _ => "[object Object]"

end

/-- The whitespace characters trimmed/skipped by JS (`trim`, `parseFloat`);
restricted to the ASCII ones, which is all the sources can receive from the
claims below. -/
def isWSChar (c : Char) : Bool :=
  c == Char.ofNat 32 || c == Char.ofNat 9 || c == Char.ofNat 10 ||
    c == Char.ofNat 13 || c == Char.ofNat 11 || c == Char.ofNat 12

def trimCharList (l : List Char) : List Char :=
  ((l.dropWhile isWSChar).reverse.dropWhile isWSChar).reverse

/-- `String.prototype.trim`. -/
def jsTrimStr (s : String) : String := String.mk (trimCharList s.data)

/-- A JS number as produced by `parseFloat`. -/
inductive JSNum where
  | nan
  | inf (neg : Bool)
  | val (q : ℚ)
deriving DecidableEq

/-- `Number.isNaN v`. -/
def JSNum.isNaN : JSNum → Bool
  | .nan => true
  | _ => false

/-- JS falsiness of a number: `NaN` and `0` are falsy. -/
def JSNum.falsy : JSNum → Bool
  | .nan => true
  | .val q => q == 0
  | .inf _ => false

/-- `v <= 0` in JS (false for `NaN`). -/
def JSNum.le0 : JSNum → Bool
  | .nan => false
  | .val q => decide (q ≤ 0)
  | .inf neg => neg

/-- `JSON.stringify` of a number slot: `NaN` and infinities serialise as
`null`. -/
def JSNum.toJson : JSNum → Json
  | .val q => .num q
  | _ => .null

def parseDigitsAux : List Char → ℕ → ℕ → ℕ × ℕ × List Char
  | [], acc, cnt => (acc, cnt, [])
  | c :: cs, acc, cnt =>
    if c.isDigit then parseDigitsAux cs (10 * acc + (c.toNat - 48)) (cnt + 1)
    else (acc, cnt, c :: cs)

/-- Parse a maximal run of decimal digits: value, digit count, rest. -/
def parseDigits (cs : List Char) : ℕ × ℕ × List Char := parseDigitsAux cs 0 0

/-- JS `parseFloat`: skip leading whitespace, optional sign, `Infinity` or a
decimal mantissa with optional exponent; trailing garbage is ignored; `NaN`
when no digits are found. -/
def jsParseFloat (s : String) : JSNum :=
  let cs0 := s.data.dropWhile isWSChar
  let signed : Bool × List Char :=
    match cs0 with
    | Char.mk 45 _ :: rest => (true, rest)
    | Char.mk 43 _ :: rest => (false, rest)
    | _ => (false, cs0)
  let neg := signed.1
  let cs1 := signed.2
  if cs1.take 8 = "Infinity".data then JSNum.inf neg
  else
    let ipr := parseDigits cs1
    let ip := ipr.1
    let ic := ipr.2.1
    let cs2 := ipr.2.2
    let fpr : ℕ × ℕ × List Char :=
      match cs2 with
      | Char.mk 46 _ :: rest => parseDigits rest
      | _ => (0, 0, cs2)
    let fp := fpr.1
    let fc := fpr.2.1
    let cs3 := fpr.2.2
    if ic = 0 ∧ fc = 0 then JSNum.nan
    else
      let expo : ℤ :=
        match cs3 with
        | Char.mk 101 _ :: rest | Char.mk 69 _ :: rest =>
          let esigned : Bool × List Char :=
            match rest with
            | Char.mk 45 _ :: r => (true, r)
            | Char.mk 43 _ :: r => (false, r)
            | _ => (false, rest)
          let epr := parseDigits esigned.2
          if epr.2.1 = 0 then 0
          else if esigned.1 then -(epr.1 : ℤ) else (epr.1 : ℤ)
        | _ => 0
      let mant : ℚ := (ip : ℚ) + (fp : ℚ) / (10 : ℚ) ^ fc
      JSNum.val ((if neg then -mant else mant) * (10 : ℚ) ^ expo)

/-! ## Leaflet map model

The widget is used through four primitives: draw polyline, draw point
marker, fit view to bounds, clear layer.  A drawn polyline keeps the lat/lng
pairs it was built from; the view keeps the last `fitBounds` argument. -/

/-- A lat/lng pair as built by the sources (entries are whatever JSON values
the response supplied; Leaflet rejects non-numeric entries). -/
abbrev JLatLng := Json × Json

/-- Numeric projection of a lat/lng pair (what the widget accepts). -/
def latLngPoint : JLatLng → Option (ℚ × ℚ)
  | (.num a, .num b) => some (a, b)
  | _ => none

structure Bounds where
  minLat : ℚ
  maxLat : ℚ
  minLon : ℚ
  maxLon : ℚ
deriving DecidableEq

def Bounds.ofPoint (p : ℚ × ℚ) : Bounds := ⟨p.1, p.1, p.2, p.2⟩

def Bounds.extend (b : Bounds) (p : ℚ × ℚ) : Bounds :=
  ⟨min b.minLat p.1, max b.maxLat p.1, min b.minLon p.2, max b.maxLon p.2⟩

def unionStep (acc : Option Bounds) (p : ℚ × ℚ) : Option Bounds :=
  match acc with
  | none => some (Bounds.ofPoint p)
  | some b => some (b.extend p)

/-- Union bounding box of a list of points; `none` when there is none
(Leaflet: invalid bounds, which `fitBounds` rejects). -/
def unionBounds (pts : List (ℚ × ℚ)) : Option Bounds :=
  pts.foldl unionStep none

def Bounds.holds (b : Bounds) (p : ℚ × ℚ) : Bool :=
  decide (b.minLat ≤ p.1) && decide (p.1 ≤ b.maxLat) &&
    decide (b.minLon ≤ p.2) && decide (p.2 ≤ b.maxLon)

/-- `LatLngBounds.pad r`: buffer each side by `r` times the box extent (the
boxes built here always have `max ≥ min`, so Leaflet's `abs` is the
identity). -/
def Bounds.pad (b : Bounds) (r : ℚ) : Bounds :=
  let hb := (b.maxLat - b.minLat) * r
  let wb := (b.maxLon - b.minLon) * r
  ⟨b.minLat - hb, b.maxLat + hb, b.minLon - wb, b.maxLon + wb⟩

/-- `L.polyline(latlngs)`: the LatLng constructor throws on coordinates that
fail its `isNaN` check.  Numeric strings, which `+`-coerce in Leaflet, are
outside the modelled domain (see header). -/
def polylineE (latlngs : List JLatLng) : Except JsErr (List JLatLng) :=
  if latlngs.all fun p => (latLngPoint p).isSome then .ok latlngs
  else .error .leafletError

/-- `L.circleMarker([lat, lon], ...)` centre validation, as for `polylineE`. -/
def latLngE (lat lon : Json) : Except JsErr (ℚ × ℚ) :=
  match lat, lon with
  | .num a, .num b => .ok (a, b)
  | _, _ => .error .leafletError

/-- Index access `v[i]` (arrays and strings index; anything else yields
`undefined`). -/
def jsIdx : Json → ℕ → Json
  | .arr xs, i => xs.getD i .null
  | .str s, i =>
    match s.data.get? i with
    | some c => .str (String.mk [c])
    | none => .null
  | _, _ => .null

/-- `coordsToLatLngs` (src/main.js lines 27-31): `[lon, lat]` to
`[lat, lon]`. -/
def coordsToLatLngs (coords : Json) : List JLatLng :=
  match coords with
  | .arr cs => cs.map fun c => (jsIdx c 1, jsIdx c 0)
  | _ => []

/-! ## src/main.js — summary, warnings, steps, map -/

structure SummaryViews where
  distanceText : String
  durationText : String
  riskText : String
  badgeText : String
  badgeClass : String
  nearestText : String
deriving DecidableEq

/-- Distance fallback chain of src/main.js (lines 45-49):
`data.distance_km ?? data.summary?.distance_km ?? data.summary?.distance ?? null`. -/
def mainjsSelDistance (data : Json) : Json :=
  jsNullish (jsGet data "distance_km")
    (jsNullish (jsGet (jsGet data "summary") "distance_km")
      (jsGet (jsGet data "summary") "distance"))

/-- Duration fallback chain of src/main.js (lines 50-54). -/
def mainjsSelDuration (data : Json) : Json :=
  jsNullish (jsGet data "duration_min")
    (jsNullish (jsGet (jsGet data "summary") "duration_min")
      (jsGet (jsGet data "summary") "duration"))

/-- Warnings fallback chain of src/main.js (lines 59, 96, 193):
`data.bridge_warnings || data.warnings || []`. -/
def mainjsSelWarnings (data : Json) : Json :=
  jsOr (jsGet data "bridge_warnings") (jsOr (jsGet data "warnings") (.arr []))

/-- `data.nearest_bridge || data.nearestBridge || null` (line 60). -/
def mainjsSelNearest (data : Json) : Json :=
  jsOr (jsGet data "nearest_bridge") (jsOr (jsGet data "nearestBridge") .null)

/-- `x != null ? x.toFixed(d) + suffix : "–"`; a non-null non-number throws. -/
def fixedOrDash (d : ℕ) (j : Json) (suffix : String) : Except JsErr String :=
  match j with
  | .null => .ok "–"
  | .num q => .ok (jsToFixed d q ++ suffix)
  | _ => .error .typeError

/-- Digit value for `ToNumber`'s radix literals (`0x`, `0o`, `0b`). -/
def hexDigitVal (c : Char) : Option ℕ :=
  if c.isDigit then some (c.toNat - 48)
  else if 97 ≤ c.toNat ∧ c.toNat ≤ 102 then some (c.toNat - 87)
  else if 65 ≤ c.toNat ∧ c.toNat ≤ 70 then some (c.toNat - 55)
  else none

def radixValAux (radix : ℕ) : List Char → ℕ → Option ℕ
  | [], acc => some acc
  | c :: cs, acc =>
    match hexDigitVal c with
    | some v => if v < radix then radixValAux radix cs (radix * acc + v) else none
    | none => none

/-- Value of a non-empty digit run in the given radix; `none` on a bad or
missing digit. -/
def radixVal (radix : ℕ) (cs : List Char) : Option ℕ :=
  if cs = [] then none else radixValAux radix cs 0

def radixNum (radix : ℕ) (ds : List Char) : JSNum :=
  match radixVal radix ds with
  | some n => JSNum.val n
  | none => JSNum.nan

/-- Strict decimal literal `digits [. digits] [(e|E) [+|-] digits]`
consuming the whole input (ECMA `StrDecimalLiteral` without sign);
`none` = `NaN`. -/
def strictDecimalBody (cs : List Char) : Option ℚ :=
  let ipr := parseDigits cs
  let ip := ipr.1
  let ic := ipr.2.1
  let cs2 := ipr.2.2
  let fpr : ℕ × ℕ × List Char :=
    match cs2 with
    | Char.mk 46 _ :: rest => parseDigits rest
    | _ => (0, 0, cs2)
  let fp := fpr.1
  let fc := fpr.2.1
  let cs3 := fpr.2.2
  if ic = 0 ∧ fc = 0 then none
  else
    match cs3 with
    | [] => some ((ip : ℚ) + (fp : ℚ) / (10 : ℚ) ^ fc)
    | Char.mk 101 _ :: rest | Char.mk 69 _ :: rest =>
      let esigned : Bool × List Char :=
        match rest with
        | Char.mk 45 _ :: r => (true, r)
        | Char.mk 43 _ :: r => (false, r)
        | _ => (false, rest)
      let epr := parseDigits esigned.2
      if epr.2.1 = 0 ∨ epr.2.2 ≠ [] then none
      else
        some (((ip : ℚ) + (fp : ℚ) / (10 : ℚ) ^ fc) *
          (10 : ℚ) ^ (if esigned.1 then -(epr.1 : ℤ) else (epr.1 : ℤ)))
    | _ => none

/-- `ToNumber` of a string (ECMA `StringToNumber`): trim whitespace; empty
means `0`; signed `Infinity`; unsigned `0x`/`0o`/`0b` radix literals;
otherwise a strict decimal literal consuming the whole string, else
`NaN`. -/
def jsStrToNum (s : String) : JSNum :=
  match trimCharList s.data with
  | [] => JSNum.val 0
  | Char.mk 48 _ :: Char.mk 120 _ :: ds => radixNum 16 ds
  | Char.mk 48 _ :: Char.mk 88 _ :: ds => radixNum 16 ds
  | Char.mk 48 _ :: Char.mk 111 _ :: ds => radixNum 8 ds
  | Char.mk 48 _ :: Char.mk 79 _ :: ds => radixNum 8 ds
  | Char.mk 48 _ :: Char.mk 98 _ :: ds => radixNum 2 ds
  | Char.mk 48 _ :: Char.mk 66 _ :: ds => radixNum 2 ds
  | cs =>
    let signed : Bool × List Char :=
      match cs with
      | Char.mk 45 _ :: rest => (true, rest)
      | Char.mk 43 _ :: rest => (false, rest)
      | _ => (false, cs)
    if signed.2 = "Infinity".data then JSNum.inf signed.1
    else
      match strictDecimalBody signed.2 with
      | some q => JSNum.val (if signed.1 then -q else q)
      | none => JSNum.nan

/-- `n > 0` for a coerced JS number (`NaN` compares false). -/
def JSNum.gt0 : JSNum → Bool
  | .nan => false
  | .val q => decide (0 < q)
  | .inf neg => !neg

/-- JS `x > 0`: numbers compare directly, booleans/`null` coerce to `1`/`0`,
strings and arrays coerce through `ToNumber` of their primitive string
form (`NaN` and `undefined` compare false), and a plain object coerces to
`"[object Object]"`, hence `NaN`. -/
def jsGtZero : Json → Bool
  | .null => false
  | .bool b => b
  | .num q => decide (0 < q)
  | .str s => (jsStrToNum s).gt0
  | .arr xs => (jsStrToNum (jsCoerceJoin xs)).gt0
  | .obj _ => false

/-- The guard `v.length > 0` (part_001 lines 157/181): arrays and strings
have a numeric length, an object reads its `length` field (JS `>`
coercion), and on other primitives the read yields `undefined`
(`NaN > 0` is false). -/
def jsLenGtZero : Json → Bool
  | .arr xs => decide (0 < xs.length)
  | .str s => decide (0 < s.length)
  | .obj fs => jsGtZero (jsGet (.obj fs) "length")
  | _ => false

/-- Truthiness of the `v.length` read, the `!v.length` /
`v.length ? _ : _` guards of src/main.js (lines 63, 87, 101, 125): an
object's `length` field is tested for truthiness, and on other
primitives the read yields `undefined` (falsy). -/
def jsLenTruthy : Json → Bool
  | .arr xs => xs.length != 0
  | .str s => s.length != 0
  | .obj fs => truthy (jsGet (.obj fs) "length")
  | _ => false

/-- Risk line and badge of `updateSummary` (src/main.js lines 62-77);
returns (risk text, badge text, badge class).  The guard is
`!warnings.length` (truthiness of the `length` read), and any non-array
passing it throws at `warnings.filter` (line 67). -/
def mainjsRiskBadgeE (warnings : Json) : Except JsErr (String × String × String) :=
  if ! jsLenTruthy warnings then
    .ok ("No low-bridge conflicts detected", "Low risk", "ws-badge ws-badge--ok")
  else
    match warnings with
    | .arr ws =>
      let conflictCount :=
        (ws.filter fun w => truthy (jsOr (jsGet w "has_conflict") (jsGet w "conflict"))).length
      if 0 < conflictCount then
        .ok (toString conflictCount ++ " conflict(s) with vehicle height",
          "Route risk", "ws-badge ws-badge--danger")
      else
        .ok (toString ws.length ++ " nearby low bridge(s)",
          "Near limit", "ws-badge ws-badge--warn")
    | _ => .error .typeError

/-- Nearest-bridge line of `updateSummary` (src/main.js lines 79-88). -/
def mainjsNearestE (nearest warnings : Json) : Except JsErr String :=
  if truthy nearest then do
    let h := jsNullish (jsGet nearest "height_m") (jsGet nearest "height")
    let d := jsNullish (jsGet nearest "distance_m") (jsGet nearest "distance")
    let t1 ← match h with
      | .null => pure ""
      | .num q => pure (jsToFixed 2 q ++ " m")
      | _ => Except.error JsErr.typeError
    let t2 ← match d with
      | .null => pure t1
      | .num q =>
        pure (if t1 != "" then t1 ++ " · " ++ jsToFixed 0 q ++ " m away"
          else jsToFixed 0 q ++ " m away")
      | _ => Except.error JsErr.typeError
    pure (if t2 != "" then t2 else "Shown on map")
  else
    .ok (if jsLenTruthy warnings then "Shown on map" else "None on route")

/-- `updateSummary` (src/main.js lines 34-89). -/
def mainjsUpdateSummary (data : Json) : Except JsErr SummaryViews := do
  let distanceText ← fixedOrDash 1 (mainjsSelDistance data) " km"
  let durationText ← fixedOrDash 1 (mainjsSelDuration data) " min"
  let rb ← mainjsRiskBadgeE (mainjsSelWarnings data)
  let nearestText ← mainjsNearestE (mainjsSelNearest data) (mainjsSelWarnings data)
  return ⟨distanceText, durationText, rb.1, rb.2.1, rb.2.2, nearestText⟩

/-- One warning list item (src/main.js lines 106-115). -/
def mainjsWarnItemE (w : Json) : Except JsErr String := do
  let desc := jsStringCoerce (jsOr (jsGet w "description") (.str "Low bridge"))
  let height := jsNullish (jsGet w "height_m") (jsGet w "height")
  let dist := jsNullish (jsGet w "distance_m") (jsGet w "distance")
  let t1 ← match height with
    | .null => pure desc
    | .num q => pure (desc ++ " · " ++ jsToFixed 2 q ++ " m")
    | _ => Except.error JsErr.typeError
  match dist with
  | .null => pure t1
  | .num q => pure (t1 ++ " · " ++ jsToFixed 0 q ++ " m from route")
  | _ => Except.error JsErr.typeError

/-- `updateWarnings` (src/main.js lines 92-117): `none` = card hidden; the
guard is `!warnings.length`, and any non-array passing it throws at
`warnings.forEach`. -/
def mainjsUpdateWarnings (data : Json) : Except JsErr (Option (List String)) :=
  if ! jsLenTruthy (mainjsSelWarnings data) then .ok none
  else
    match mainjsSelWarnings data with
    | .arr ws => (ws.mapM mainjsWarnItemE).map some
    | _ => .error .typeError

/-- `data.steps || data.turn_by_turn || []` (src/main.js line 123). -/
def mainjsSelSteps (data : Json) : Json :=
  jsOr (jsGet data "steps") (jsOr (jsGet data "turn_by_turn") (.arr []))

/-- `updateSteps` (src/main.js lines 120-137): `none` = card hidden; the
guard is `!steps.length`, and any non-array passing it throws at
`steps.forEach`. -/
def mainjsUpdateSteps (data : Json) : Except JsErr (Option (List String)) :=
  if ! jsLenTruthy (mainjsSelSteps data) then .ok none
  else
    match mainjsSelSteps data with
    | .arr ss =>
      .ok (some (ss.map fun s =>
        jsStringCoerce (jsOr (jsGet s "instruction") (jsOr (jsGet s "text") s))))
    | _ => .error .typeError

/-- A drawn bridge marker (src/main.js lines 202-215). -/
structure BridgeMark where
  center : ℚ × ℚ
  color : String
  popup : String
deriving DecidableEq

/-- One marker of the `updateMap` warnings loop (src/main.js lines 194-216);
`none` = entry skipped for lack of coordinates. -/
def mainjsMarkerE (w : Json) : Except JsErr (Option BridgeMark) :=
  match jsNullish (jsGet w "lat") (jsGet w "latitude"),
      jsNullish (jsGet w "lon") (jsGet w "longitude") with
  | .null, _ => .ok none
  | _, .null => .ok none
  | lat, lon => do
  let height := jsNullish (jsGet w "height_m") (jsGet w "height")
  let hasConflict := truthy (jsOr (jsGet w "has_conflict") (jsGet w "conflict"))
  let color := if hasConflict then "#ff5b5b" else "#ffb347"
  let c ← latLngE lat lon
  let desc := jsStringCoerce (jsOr (jsGet w "description") (.str "Low bridge"))
  let base := "<strong>" ++ desc ++ "</strong>"
  let withHeight ← match height with
    | .null => pure base
    | .num q => pure (base ++ "<br/>Height: " ++ jsToFixed 2 q ++ " m")
    | _ => Except.error JsErr.typeError
  let popup :=
    if hasConflict then
      withHeight ++ "<br/><span style=\"color:#ffaaaa;\">Conflict with vehicle height</span>"
    else withHeight
  return some ⟨c, color, popup⟩

/-- The marker pass of `updateMap` (src/main.js lines 193-216): `forEach`
throws on a truthy non-array. -/
def mainjsMarkersE (warnings : Json) : Except JsErr (List BridgeMark) :=
  match warnings with
  | .arr ws => (ws.mapM mainjsMarkerE).map (List.filterMap id)
  | _ => .error .typeError

structure MapLayers where
  mainRoute : Option (List JLatLng)
  altRoute : Option (List JLatLng)
  bridges : List BridgeMark

structure MapState where
  mainRoute : Option (List JLatLng)
  altRoute : Option (List JLatLng)
  bridges : List BridgeMark
  view : Option Bounds

/-- Layer-and-fit computation of `updateMap` (src/main.js lines 140-221):
the tracked layers are cleared first (so the early return leaves them
empty), geometry is extracted, drawn, and the `fitBounds` argument computed
from the main route layer; `none` in the second component means `fitBounds`
was not called.  The outcome depends only on `data`; `mainjsUpdateMap`
merges it into the map state. -/
def mainjsSelMainGeom (data : Json) : Json :=
  jsOr (jsGet (jsGet data "main_route") "geometry")
    (jsOr (jsGet data "main_geometry")
      (jsOr (jsGet data "geometry") (jsGet data "main_route")))

def mainjsSelAltGeom (data : Json) : Json :=
  jsOr (jsGet (jsGet data "alt_route") "geometry")
    (jsOr (jsGet data "alt_geometry") (jsGet data "alt_route"))

def mainjsMapCore (data : Json) : Except JsErr (MapLayers × Option Bounds) := do
  if ¬ truthy (mainjsSelMainGeom data) ∨ ¬ (mainjsSelMainGeom data).isArr then
    return (⟨none, none, []⟩, none)
  let mainLayer ← polylineE (coordsToLatLngs (mainjsSelMainGeom data))
  let altLayer ← (if truthy (mainjsSelAltGeom data) ∧ (mainjsSelAltGeom data).isArr then
      (polylineE (coordsToLatLngs (mainjsSelAltGeom data))).map some
    else pure none)
  let marks ← mainjsMarkersE (mainjsSelWarnings data)
  match unionBounds ((coordsToLatLngs (mainjsSelMainGeom data)).filterMap latLngPoint) with
  | some b => return (⟨some mainLayer, altLayer, marks⟩, some b)
  | none => Except.error JsErr.leafletError

/-- `updateMap` (src/main.js lines 140-221) as a map-state transformer. -/
def mainjsUpdateMap (data : Json) (s : MapState) : Except JsErr MapState :=
  (mainjsMapCore data).map fun r =>
    ⟨r.1.mainRoute, r.1.altRoute, r.1.bridges,
      match r.2 with
      | some b => some b
      | none => s.view⟩

/-! ## Network outcomes and event traces

A submit handler is embedded as the list of user-visible actions it
performs, parameterised by the outcome of its single `fetch`.  Applying a
trace to a `ClientState` (below) gives the page state the handler leaves
behind. -/

/-- Body of a non-2xx response, as the handlers can observe it. -/
inductive ErrBody where
  | notJson
  | parseFail
  | json (j : Json)

/-- Outcome of one `fetch` round trip. -/
inductive NetResult where
  | ok (isJson : Bool) (data : Json)
  | okParseFail
  | httpErr (status : ℕ) (body : ErrBody)
  | netFail

inductive Ev where
  | status (s : String)
  | err (s : String)
  | btn (disabled : Bool)
  | btnLabel (s : String)
  | request (payload : Json)
  | summary (v : SummaryViews)
  | warnCard (w : Option (List String))
  | stepsCard (w : Option (List String))
  | mapSet (l : MapLayers) (fit : Option Bounds)
  | summary3 (distanceText timeText bridgeRiskText nearestText : String)
  | map3Set (mainDrawn altDrawn : Bool) (hazardCount : ℕ) (fitToMain : Option Bounds)
  | summaryF (distanceText timeText bridgeRiskText nearestText : String)
  | mapFRender (geometry : Json)

/-- Outcome of the success-branch render pass of src/main.js
(lines 291-294): `updateSummary; updateWarnings; updateSteps; updateMap`.
A throw anywhere aborts the pass (DOM writes of the partially completed
render are not modelled; no theorem concerns them). -/
def mainjsRenderData (data : Json) :
    Except JsErr (SummaryViews × Option (List String) × Option (List String) ×
      MapLayers × Option Bounds) := do
  let v ← mainjsUpdateSummary data
  let w ← mainjsUpdateWarnings data
  let st ← mainjsUpdateSteps data
  let core ← mainjsMapCore data
  pure (v, w, st, core.1, core.2)

def mainjsRenderAll (data : Json) : Except JsErr (List Ev) :=
  (mainjsRenderData data).map fun r =>
    [.summary r.1, .warnCard r.2.1, .stepsCard r.2.2.1, .mapSet r.2.2.2.1 r.2.2.2.2]

/-- Error detail extraction of src/main.js (lines 270-277). -/
def mainjsErrDetail : ErrBody → String
  | .json e =>
    match jsGet e "detail" with
    | .str d => d
    | .arr l =>
      let m := jsGet (jsIdx (.arr l) 0) "msg"
      if truthy m then jsStringCoerce m else "Unknown error"
    | _ => "Unknown error"
  | _ => "Unknown error"

def mainjsCatchMsg : String :=
  "Error generating route. Check the API is up and try again."

/-- Events of src/main.js after the `fetch` resolves (lines 265-303). -/
def mainjsNetBranch : NetResult → List Ev
  | .httpErr _ .parseFail => [.status mainjsCatchMsg]
  | .httpErr status body =>
    [.status ("Could not generate route: RouteSafe-AI error " ++ toString status ++
      ": " ++ mainjsErrDetail body ++ ".")]
  | .okParseFail => [.status mainjsCatchMsg]
  | .netFail => [.status mainjsCatchMsg]
  | .ok isJson data =>
    if ¬ isJson then [.status "No data returned from RouteSafe-AI."]
    else if ¬ truthy data then [.status "No data returned from RouteSafe-AI."]
    else
      match mainjsRenderAll data with
      | .ok evs => evs ++ [.status "Safe route generated."]
      | .error _ => [.status mainjsCatchMsg]

/-- The form submit handler of src/main.js (lines 229-304).
`startRaw`/`endRaw`/`heightRaw` are the raw form-field values (the handler
trims them); `net` is the outcome of the single `fetch`. -/
def mainjsSubmit (startRaw endRaw heightRaw : String) (avoid : Bool)
    (net : NetResult) : List Ev :=
  let start := jsTrimStr startRaw
  let endv := jsTrimStr endRaw
  let heightStr := jsTrimStr heightRaw
  if start = "" ∨ endv = "" ∨ heightStr = "" then
    [.status "Please enter start, destination and vehicle height."]
  else
    let vehicleHeight := jsParseFloat heightStr
    if vehicleHeight.isNaN then
      [.status "Vehicle height must be a valid number (metres)."]
    else
      let payload := Json.obj [("start", .str start), ("end", .str endv),
        ("vehicle_height_m", vehicleHeight.toJson),
        ("avoid_low_bridges", .bool avoid)]
      [.btn true, .status "Requesting safe HGV route from RouteSafe-AI…",
        .request payload] ++ mainjsNetBranch net ++ [.btn false]

/-! ## Client state and trace application -/

structure ViewsState where
  summary : Option SummaryViews
  warnings : Option (List String)
  steps : Option (List String)

structure ClientState where
  statusText : String
  btnDisabled : Bool
  btnLabel : String
  errBanner : String
  views : ViewsState
  mapS : MapState

/-- Apply one event to the src/main.js page state.  Events of the other
page variants (part_003, frontend) leave this state unchanged; their
traces are only inspected for event presence and order. -/
def applyEv (s : ClientState) : Ev → ClientState
  | .status t => { s with statusText := t }
  | .err t => { s with errBanner := t }
  | .btn b => { s with btnDisabled := b }
  | .btnLabel t => { s with btnLabel := t }
  | .request _ => s
  | .summary v => { s with views := { s.views with summary := some v } }
  | .warnCard w => { s with views := { s.views with warnings := w } }
  | .stepsCard w => { s with views := { s.views with steps := w } }
  | .mapSet l fit =>
    { s with mapS := ⟨l.mainRoute, l.altRoute, l.bridges,
        match fit with
        | some b => some b
        | none => s.mapS.view⟩ }
  | .summary3 _ _ _ _ => s
  | .map3Set _ _ _ _ => s
  | .summaryF _ _ _ _ => s
  | .mapFRender _ => s

def applyTrace (s : ClientState) (evs : List Ev) : ClientState :=
  evs.foldl applyEv s

/-! ## Trace observations -/

def Ev.isRequest : Ev → Bool
  | .request _ => true
  | _ => false

def Ev.isBtn : Ev → Bool
  | .btn _ => true
  | _ => false

def Ev.isRender : Ev → Bool
  | .summary _ => true
  | .warnCard _ => true
  | .stepsCard _ => true
  | .mapSet _ _ => true
  | _ => false

def hasRequest (evs : List Ev) : Bool := evs.any Ev.isRequest

def hasBtnEv (evs : List Ev) : Bool := evs.any Ev.isBtn

def hasRenderEv (evs : List Ev) : Bool := evs.any Ev.isRender

/-- The last status-banner text of a trace, if any. -/
def finalStatus (evs : List Ev) : Option String :=
  (evs.filterMap fun e =>
    match e with
    | .status t => some t
    | _ => none).getLast?

/-- The last submit-control disabled state set by a trace, if any. -/
def lastBtn (evs : List Ev) : Option Bool :=
  (evs.filterMap fun e =>
    match e with
    | .btn b => some b
    | _ => none).getLast?

/-- Every `request` event of the trace is emitted while the submit control
is disabled (the control starts enabled). -/
def requestsDisabledFrom : Bool → List Ev → Bool
  | _, [] => true
  | _, .btn b :: evs => requestsDisabledFrom b evs
  | d, .request _ :: evs => d && requestsDisabledFrom d evs
  | d, _ :: evs => requestsDisabledFrom d evs

def requestsDisabled (evs : List Ev) : Bool := requestsDisabledFrom false evs

/-! ## src/unnamed/part_000 — postcode cleaner and backend stub -/

def isUpperAlnumChar (c : Char) : Bool :=
  (decide (Char.ofNat 65 ≤ c) && decide (c ≤ Char.ofNat 90)) ||
    (decide (Char.ofNat 48 ≤ c) && decide (c ≤ Char.ofNat 57))

/-- `toUpperCase` restricted to the ASCII mapping; the full-Unicode JS
mapping agrees on every character an ASCII postcode form can contain. -/
def jsToUpperChar (c : Char) : Char :=
  if Char.ofNat 97 ≤ c ∧ c ≤ Char.ofNat 122 then Char.ofNat (c.toNat - 32) else c

def cleanList (l : List Char) : List Char :=
  (l.map jsToUpperChar).filter isUpperAlnumChar

/-- `value.toUpperCase().replace(/[^A-Z0-9]/g, "")` (part_000 line 211). -/
def cleanPC (s : String) : String :=
  String.mk (cleanList s.data)

/-- `normalisePostcode` (src/unnamed/part_000 lines 208-216). -/
def normalisePostcode (value : String) : String :=
  if value = "" then value
  else
    let raw := cleanPC value
    if raw.length < 5 ∨ 7 < raw.length then jsTrimStr value
    else
      String.mk (raw.data.take (raw.length - 3)) ++ " " ++
        String.mk (raw.data.drop (raw.length - 3))

/-- `RouteRequest` (part_000 lines 50-54); `end` is a Lean keyword, so the
field is `endLoc`. -/
structure RouteRequest where
  start : String
  endLoc : String
  vehicle_height_m : ℚ
  avoid_low_bridges : Bool := true

structure BridgeRisk where
  level : String
  status_text : String
  nearest_bridge_height_m : Option ℚ := none
  nearest_bridge_distance_m : Option ℚ := none
deriving DecidableEq

structure WarningItem where
  level : String := "low"
  message : String
deriving DecidableEq

structure LineStringG where
  coordinates : List (ℚ × ℚ)
deriving DecidableEq

structure BridgeMarkerR where
  lat : ℚ
  lon : ℚ
  height_m : Option ℚ := none
  risk_level : String := "low"
  message : Option String := none
deriving DecidableEq

structure RouteSummaryR where
  distance_km : ℚ
  duration_min : ℚ
deriving DecidableEq

/-- `RouteResponse` (part_000 lines 91-100); steps carry their instruction
strings. -/
structure RouteResponse where
  summary : RouteSummaryR
  distance_km : ℚ
  duration_min : ℚ
  bridge_risk : BridgeRisk
  warnings : List WarningItem
  steps : List String
  geometry : Option LineStringG
  alt_geometry : Option LineStringG
  bridge_markers : List BridgeMarkerR
deriving DecidableEq

/-- `build_demo_route` (part_000 lines 122-203). -/
def build_demo_route (start endLoc : String) (vehicle_height_m : ℚ) :
    RouteResponse :=
  let high_risk := decide ((4.8 : ℚ) < vehicle_height_m)
  let demo_line : LineStringG :=
    ⟨[(-1.602, 53.758), (-1.55, 53.75), (-1.48, 53.74), (-1.35, 53.73),
      (-2.25, 53.48)]⟩
  let alt_line : Option LineStringG :=
    if high_risk then
      some ⟨[(-1.602, 53.758), (-1.62, 53.72), (-1.7, 53.68), (-1.9, 53.58),
        (-2.25, 53.48)]⟩
    else none
  let bridge_markers : List BridgeMarkerR :=
    if high_risk then
      [⟨53.74, -1.5, some 4.6, "high", some "Low bridge 4.6 m â€“ main route diverted."⟩]
    else []
  let warnings : List WarningItem :=
    if high_risk then
      [⟨"high", "Low bridge (4.6 m) detected near Morley; main route diverted."⟩]
    else []
  let bridge_risk : BridgeRisk :=
    ⟨if high_risk then "high" else "low",
      if high_risk then "Low bridge on direct path; alternative offered."
      else "No conflicts detected for this height.",
      some (if high_risk then 4.6 else 5.2), some 130⟩
  let summary : RouteSummaryR := ⟨27.3, 42⟩
  { summary := summary
    distance_km := summary.distance_km
    duration_min := summary.duration_min
    bridge_risk := bridge_risk
    warnings := warnings
    steps :=
      ["Start at " ++ start, "Head towards M62 via A650.",
        if high_risk then "Follow HGV diversion avoiding low bridge near Morley."
        else "Follow primary route through Morley.",
        "Arrive at " ++ endLoc ++ "."]
    geometry := some demo_line
    alt_geometry := alt_line
    bridge_markers := bridge_markers }

/-- `api_route` (part_000 lines 105-117): an `HTTPException` is the error
pair (status, detail). -/
def api_route (req : RouteRequest) : Except (ℕ × String) RouteResponse :=
  if req.vehicle_height_m ≤ 0 then
    .error (400, "Vehicle height must be > 0")
  else
    .ok (build_demo_route req.start req.endLoc req.vehicle_height_m)

/-! ## src/unnamed/part_001 — handleRouteResponse and drawRouteOnMap -/

/-- ASCII `toLowerCase` (the sources only lowercase risk-level words). -/
def jsToLowerStr (s : String) : String := String.mk (s.data.map Char.toLower)

/-- `data.distance_km ?? data.summary?.distance_km ?? null` (part_001
line 111; note: no `summary.distance` third candidate in this copy). -/
def p001SelDistance (data : Json) : Json :=
  jsNullish (jsGet data "distance_km") (jsGet (jsGet data "summary") "distance_km")

/-- `data.duration_min ?? data.summary?.duration_min ?? null` (line 112-113). -/
def p001SelDuration (data : Json) : Json :=
  jsNullish (jsGet data "duration_min") (jsGet (jsGet data "summary") "duration_min")

/-- `data.bridge_risk || data.bridge_status || {}` (line 114). -/
def p001SelRisk (data : Json) : Json :=
  jsOr (jsGet data "bridge_risk") (jsOr (jsGet data "bridge_status") (.obj []))

/-- `data.steps || data.route_steps || []` (line 115). -/
def p001SelSteps (data : Json) : Json :=
  jsOr (jsGet data "steps") (jsOr (jsGet data "route_steps") (.arr []))

/-- `data.warnings || data.bridge_warnings || []` (line 116): `warnings`
first in this copy. -/
def p001SelWarnings (data : Json) : Json :=
  jsOr (jsGet data "warnings") (jsOr (jsGet data "bridge_warnings") (.arr []))

/-- `x ? x.toFixed(d) + suffix : "–"` (truthiness, not a null test). -/
def truthyFixed (d : ℕ) (j : Json) (suffix : String) : Except JsErr String :=
  if truthy j then
    match j with
    | .num q => .ok (jsToFixed d q ++ suffix)
    | _ => .error .typeError
  else .ok "–"

/-- `durationMin ? Math.round(durationMin) + " min" : "–"` (part_001 lines
122-124).  `Math.round` coerces its argument, so this never throws; for
truthy non-numbers JS would coerce (possibly to `NaN`) — this model renders
the `NaN` outcome uniformly, and such inputs lie outside every theorem
below. -/
def p001DurationText (j : Json) : String :=
  if truthy j then
    match j with
    | .num q => toString (jsRound q) ++ " min"
    | _ => "NaN min"
  else "–"

/-- Nearest-bridge line (part_001 lines 129-138). -/
def p001NearestE (risk : Json) : Except JsErr String :=
  match jsGet risk "nearest_bridge_height_m" with
  | .null => .ok "–"
  | .num q => do
    let dist ← match jsGet risk "nearest_bridge_distance_m" with
      | .null => pure ""
      | .num d => pure (jsToFixed 0 d ++ " m away")
      | _ => Except.error JsErr.typeError
    pure (jsTrimStr (jsToFixed 2 q ++ " m " ++ dist))
  | _ => .error .typeError

/-- `(risk.level || risk.risk_level || "unknown").toLowerCase()` (line 141). -/
def p001LevelE (risk : Json) : Except JsErr String :=
  match jsOr (jsGet risk "level") (jsOr (jsGet risk "risk_level") (.str "unknown")) with
  | .str s => .ok (jsToLowerStr s)
  | _ => .error .typeError

/-- Badge label (part_001 lines 142-149). -/
def p001BadgeText (level : String) : String :=
  if level = "high" then "High bridge risk"
  else if level = "medium" then "Medium bridge risk"
  else if level = "low" then "Low bridge risk"
  else "No data"

/-- `getBadgeClass` (part_001 lines 208-213). -/
def getBadgeClass (level : String) : String :=
  if level = "high" then "ws-badge--danger"
  else if level = "medium" then "ws-badge--warn"
  else if level = "low" then "ws-badge--ok"
  else "ws-badge--muted"

structure WarnItem001 where
  cls : String
  text : String
deriving DecidableEq

/-- One warning list item (part_001 lines 157-171). -/
def p001WarnItemE (w : Json) : Except JsErr WarnItem001 := do
  let lvl ← match jsOr (jsGet w "level") (.str "") with
    | .str s => pure (jsToLowerStr s)
    | _ => Except.error JsErr.typeError
  let cls := "ws-list-item " ++
    (if lvl = "high" then "ws-list-item--danger"
     else if lvl = "medium" then "ws-list-item--warning"
     else "")
  let text := jsStringCoerce
    (jsOr (jsGet w "message") (jsOr (jsGet w "text") (.str (jsonStringify w))))
  return ⟨cls, text⟩

/-- Warnings card (part_001 lines 153-174): `none` = hidden.  The guard is
`warnings.length > 0` (coercing an object's `length` field), and any
non-array passing it throws at `warnings.forEach`. -/
def p001WarningsE (warnings : Json) : Except JsErr (Option (List WarnItem001)) :=
  if jsLenGtZero warnings then
    match warnings with
    | .arr ws => (ws.mapM p001WarnItemE).map some
    | _ => .error .typeError
  else .ok none

/-- One step item (part_001 lines 180-187). -/
def p001StepText (idx : ℕ) (s : Json) : String :=
  jsStringCoerce (jsOr (jsGet s "instruction") (jsOr (jsGet s "text")
    (.str ("Step " ++ toString (idx + 1) ++ ": " ++ jsonStringify s ++ " "))))

/-- Steps card (part_001 lines 177-191): `none` = hidden.  The guard is
`steps.length > 0`, and any non-array passing it throws at
`steps.forEach`. -/
def p001StepsE (steps : Json) : Except JsErr (Option (List String)) :=
  if jsLenGtZero steps then
    match steps with
    | .arr ss => .ok (some (ss.enum.map fun p => p001StepText p.1 p.2))
    | _ => .error .typeError
  else .ok none

/-- `v && v.type === "LineString"`. -/
def isLineString (g : Json) : Bool :=
  truthy g &&
    (match jsGet g "type" with
     | .str s => s == "LineString"
     | _ => false)

/-- `extractMainGeometry` (part_001 lines 328-340); returns `null` when no
candidate matches. -/
def extractMainGeometry (data : Json) : Json :=
  if isLineString (jsGet data "geometry") then jsGet data "geometry"
  else if isLineString (jsGet data "route_geometry") then jsGet data "route_geometry"
  else if isLineString (jsGet data "main_geometry") then jsGet data "main_geometry"
  else .null

/-- `extractAltGeometry` (part_001 lines 342-350). -/
def extractAltGeometry (data : Json) : Json :=
  if isLineString (jsGet data "alt_geometry") then jsGet data "alt_geometry"
  else if isLineString (jsGet data "alternative_geometry") then
    jsGet data "alternative_geometry"
  else .null

/-- `extractBridgeMarkers` (part_001 lines 352-357). -/
def extractBridgeMarkers (data : Json) : List Json :=
  match jsGet data "bridge_markers" with
  | .arr xs => xs
  | _ =>
    match jsGet data "bridges" with
    | .arr xs => xs
    | _ =>
      match jsGet data "bridge_warnings" with
      | .arr xs => xs
      | _ => []

/-- `geojsonCoordsToLatLngs` (part_001 lines 316-324): keep the pairs of
length ≥ 2, swapped to `[lat, lon]`; the `filter(Boolean)` drops the
`null` placeholders. -/
def geojsonCoordsToLatLngs (coords : Json) : List JLatLng :=
  match coords with
  | .arr cs =>
    cs.filterMap fun c =>
      match c with
      | .arr l => if 2 ≤ l.length then some (jsIdx (.arr l) 1, jsIdx (.arr l) 0) else none
      | _ => none
  | _ => []

/-- One bridge marker of `drawRouteOnMap` (part_001 lines 281-305); `none`
= entry skipped for lack of coordinates. -/
def p001MarkerE (b : Json) : Except JsErr (Option BridgeMark) :=
  match jsNullish (jsGet b "lat") (jsGet b "latitude"),
      jsNullish (jsGet b "lon") (jsNullish (jsGet b "lng") (jsGet b "longitude")) with
  | .null, _ => .ok none
  | _, .null => .ok none
  | lat, lon => do
    let risk ← match jsOr (jsGet b "risk_level") (jsOr (jsGet b "level") (.str "low")) with
      | .str s => pure (jsToLowerStr s)
      | _ => Except.error JsErr.typeError
    let color :=
      if risk = "high" then "#f97316"
      else if risk = "medium" then "#eab308"
      else "#22c55e"
    let c ← latLngE lat lon
    let fallback ← (if truthy (jsGet b "height_m") then
        match jsGet b "height_m" with
        | .num q => pure ("Bridge " ++ jsToFixed 2 q ++ " m")
        | _ => Except.error JsErr.typeError
      else pure "Bridge ")
    let msg := jsStringCoerce
      (jsOr (jsGet b "message") (jsOr (jsGet b "text") (.str fallback)))
    return some ⟨c, color, msg⟩

/-- The layer state tracked by part_001: `bridges = some ms` means the
bridge layer group was added to the map (possibly with every entry
skipped). -/
structure Layers3 where
  mainRoute : Option (List JLatLng)
  altRoute : Option (List JLatLng)
  bridges : Option (List BridgeMark)

structure Map3 where
  mainRoute : Option (List JLatLng)
  altRoute : Option (List JLatLng)
  bridges : Option (List BridgeMark)
  view : Option Bounds

def Layers3.fitPoints (l : Layers3) : List (ℚ × ℚ) :=
  (match l.mainRoute with
   | some pts => pts.filterMap latLngPoint
   | none => []) ++
  (match l.altRoute with
   | some pts => pts.filterMap latLngPoint
   | none => []) ++
  (match l.bridges with
   | some ms => ms.map BridgeMark.center
   | none => [])

def Layers3.anyDrawn (l : Layers3) : Bool :=
  l.mainRoute.isSome || l.altRoute.isSome || l.bridges.isSome

/-- One polyline layer of `drawRouteOnMap` (part_001 lines 256-277): drawn
when the geometry is a LineString with at least one kept pair. -/
def p001GeomLayer (g : Json) : Except JsErr (Option (List JLatLng)) :=
  if isLineString g then
    if 0 < (geojsonCoordsToLatLngs (jsGet g "coordinates")).length then
      (polylineE (geojsonCoordsToLatLngs (jsGet g "coordinates"))).map some
    else pure none
  else pure none

/-- The bridge layer group of `drawRouteOnMap` (part_001 lines 279-308):
added whenever the marker list is non-empty. -/
def p001BridgeLayer (bridgeMarkers : List Json) :
    Except JsErr (Option (List BridgeMark)) :=
  if 0 < bridgeMarkers.length then
    (bridgeMarkers.mapM p001MarkerE).map fun ms => some (ms.filterMap id)
  else pure none

/-- Layer-and-fit computation of `drawRouteOnMap` (part_001 lines 237-314):
clear the three tracked layers, draw main (solid) and alt (dashed)
polylines when their geometry is a non-empty LineString, draw the bridge
layer when the marker list is non-empty, then fit the view to the padded
bounds of everything pushed to `layersToFit` (an invalid bounds throws in
`fitBounds`). -/
def p001DrawCore (mainGeom altGeom : Json) (bridgeMarkers : List Json) :
    Except JsErr (Layers3 × Option Bounds) := do
  let mainLayer ← p001GeomLayer mainGeom
  let altLayer ← p001GeomLayer altGeom
  let bridgeLayer ← p001BridgeLayer bridgeMarkers
  if Layers3.anyDrawn ⟨mainLayer, altLayer, bridgeLayer⟩ then
    match unionBounds (Layers3.fitPoints ⟨mainLayer, altLayer, bridgeLayer⟩) with
    | some b =>
      return (⟨mainLayer, altLayer, bridgeLayer⟩, some (b.pad (1/5)))
    | none => Except.error JsErr.leafletError
  else
    return (⟨mainLayer, altLayer, bridgeLayer⟩, none)

/-- `drawRouteOnMap` (part_001 lines 237-314) as a map-state transformer. -/
def p001DrawRouteOnMap (mainGeom altGeom : Json) (bridgeMarkers : List Json)
    (m : Map3) : Except JsErr Map3 :=
  (p001DrawCore mainGeom altGeom bridgeMarkers).map fun r =>
    ⟨r.1.mainRoute, r.1.altRoute, r.1.bridges,
      match r.2 with
      | some b => some b
      | none => m.view⟩

/-- The view state written by `handleRouteResponse` (part_001). -/
structure Views001 where
  summaryDistance : String
  summaryDuration : String
  summaryRisk : String
  summaryNearestBridge : String
  riskBadgeText : String
  riskBadgeClass : String
  warningsCard : Option (List WarnItem001)
  stepsCard : Option (List String)
  summaryShown : Bool
  emptyOpacityZero : Bool
deriving DecidableEq

/-- `handleRouteResponse` (part_001 lines 108-206): normalisation fused
with rendering.  A falsy `data` returns with the page untouched; the map
part delegates to `drawRouteOnMap`. -/
def p001HandleRouteResponse (data : Json) (st : Views001 × Map3) :
    Except JsErr (Views001 × Map3) :=
  if ¬ truthy data then .ok st
  else do
    let sDist ← truthyFixed 1 (p001SelDistance data) " km"
    let nearestText ← p001NearestE (p001SelRisk data)
    let level ← p001LevelE (p001SelRisk data)
    let warnItems ← p001WarningsE (p001SelWarnings data)
    let stepItems ← p001StepsE (p001SelSteps data)
    let m3 ← p001DrawRouteOnMap (extractMainGeometry data) (extractAltGeometry data)
      (extractBridgeMarkers data) st.2
    return (⟨sDist, p001DurationText (p001SelDuration data),
      jsStringCoerce (jsOr (jsGet (p001SelRisk data) "status_text") (.str "No bridge data")),
      nearestText, p001BadgeText level, "ws-badge " ++ getBadgeClass level,
      warnItems, stepItems, true, truthy (extractMainGeometry data)⟩, m3)

/-! ## src/unnamed/part_003 — updateSummary, updateMap, handleGenerateRoute -/

structure Views003 where
  distanceText : String
  timeText : String
  bridgeRiskText : String
  riskClasses : List String
  nearestText : String
deriving DecidableEq

/-- `updateSummary` (part_003 lines 45-86).  For the duration, `Math.round`
coerces, so a non-null non-number renders rather than throws (see
`p001DurationText`). -/
def p003UpdateSummary (data : Json) : Except JsErr Views003 := do
  let distanceText ← fixedOrDash 1 (jsGet data "distance_km") " km"
  let timeText :=
    match jsGet data "duration_min" with
    | .null => "–"
    | .num q => toString (jsRound q) ++ " min"
    | _ => "NaN min"
  let bridgeRiskText := jsStringCoerce (jsOr (jsGet data "bridge_risk") (.str "Unknown"))
  let riskClasses := "risk-pill" ::
    (match jsGet data "bridge_risk" with
     | .str s =>
       if s = "Low risk" then ["risk-low"]
       else if s = "Medium risk" then ["risk-medium"]
       else if s = "High risk" then ["risk-high"]
       else []
     | _ => [])
  let nearestText ←
    match jsGet data "nearest_bridge_height_m", jsGet data "nearest_bridge_distance_m" with
    | .null, _ => pure "None on route"
    | _, .null => pure "None on route"
    | .num h, .num d =>
      pure (jsToFixed 2 h ++ " m at " ++ jsToFixed 0 d ++ " m from route")
    | _, _ => Except.error JsErr.typeError
  return ⟨distanceText, timeText, bridgeRiskText, riskClasses, nearestText⟩

structure Hazard003 where
  center : ℚ × ℚ
  popup : Option String
deriving DecidableEq

structure Layers003 where
  mainRoute : Option (List JLatLng)
  altRoute : Option (List JLatLng)
  hazards : List Hazard003

structure Map003 where
  mainRoute : Option (List JLatLng)
  altRoute : Option (List JLatLng)
  hazards : List Hazard003
  view : Option Bounds

/-- One hazard marker (part_003 lines 145-154). -/
def p003HazardE (h : Json) : Except JsErr (Option Hazard003) :=
  match jsGet h "lat", jsGet h "lon" with
  | .null, _ => .ok none
  | _, .null => .ok none
  | lat, lon => do
    let c ← latLngE lat lon
    let popup :=
      if truthy (jsGet h "label") then some (jsStringCoerce (jsGet h "label"))
      else none
    return some ⟨c, popup⟩

/-- The hazards pass of `updateMap` (part_003 lines 144-155): only an
array of hazards is iterated. -/
def p003Hazards (j : Json) : Except JsErr (List Hazard003) :=
  match j with
  | .arr hs => (hs.mapM p003HazardE).map (List.filterMap id)
  | _ => pure []

/-- Layer-and-fit computation of `updateMap` (part_003 lines 89-156): clear
the tracked layers, draw the main polyline (fitting the view to it at draw
time), then the alt polyline (never fitted), then the hazard markers.  Note
there is no `type === "LineString"` check in this copy, and the alt
polyline is drawn independently of the main one. -/
def p003MapCore (data : Json) : Except JsErr (Layers003 × Option Bounds) := do
  let g := jsGet data "geometry"
  let mainPart ← (if truthy g ∧ (jsGet g "coordinates").isArr then
      let lc := geojsonCoordsToLatLngs (jsGet g "coordinates")
      if 0 < lc.length then do
        let layer ← polylineE lc
        match unionBounds (layer.filterMap latLngPoint) with
        | some b => pure (some layer, some b)
        | none => Except.error JsErr.leafletError
      else pure (none, none)
    else pure ((none : Option (List JLatLng)), (none : Option Bounds)))
  let ag := jsGet data "alt_geometry"
  let altLayer ← (if truthy ag ∧ (jsGet ag "coordinates").isArr then
      let lca := geojsonCoordsToLatLngs (jsGet ag "coordinates")
      if 0 < lca.length then (polylineE lca).map some else pure none
    else pure none)
  let hazards ← p003Hazards (jsGet data "hazards")
  return (⟨mainPart.1, altLayer, hazards⟩, mainPart.2)

/-- `updateMap` (part_003 lines 89-156) as a map-state transformer. -/
def p003UpdateMap (data : Json) (m : Map003) : Except JsErr Map003 :=
  (p003MapCore data).map fun r =>
    ⟨r.1.mainRoute, r.1.altRoute, r.1.hazards,
      match r.2 with
      | some b => some b
      | none => m.view⟩

/-- Number of polylines drawn on a part_003 map state. -/
def Map003.polylineCount (m : Map003) : ℕ :=
  (match m.mainRoute with
   | some _ => 1
   | none => 0) +
  (match m.altRoute with
   | some _ => 1
   | none => 0)

/-- Render pass of the part_003 success branch (lines 224-225). -/
def p003RenderData (data : Json) :
    Except JsErr (Views003 × Layers003 × Option Bounds) := do
  let v ← p003UpdateSummary data
  let mc ← p003MapCore data
  pure (v, mc.1, mc.2)

def p003RenderAll (data : Json) : Except JsErr (List Ev) :=
  (p003RenderData data).map fun r =>
    [.summary3 r.1.distanceText r.1.timeText r.1.bridgeRiskText r.1.nearestText,
      .map3Set r.2.1.mainRoute.isSome r.2.1.altRoute.isSome r.2.1.hazards.length r.2.2]

def p003CatchEvs : List Ev :=
  [.err "Error generating route. Check the API is up and try again.",
   .status "Error generating route"]

/-- Events of part_003 after the `fetch` resolves (lines 202-232).  This
copy calls `response.json()` unconditionally, so a 2xx body that fails to
parse lands in the catch. -/
def p003NetBranch : NetResult → List Ev
  | .httpErr status _ =>
    [.err ("Error from RouteSafe API (" ++ toString status ++ "). Try again or check logs."),
     .status "Error generating route"]
  | .okParseFail => p003CatchEvs
  | .netFail => p003CatchEvs
  | .ok _ data =>
    match p003RenderAll data with
    | .ok evs => evs ++ [.status "Route generated successfully."]
    | .error _ => p003CatchEvs

/-- `handleGenerateRoute` (part_003 lines 159-233).  Note this copy never
touches the submit control's `disabled` flag. -/
def p003Handle (startRaw destRaw heightRaw : String) (avoid : Bool)
    (net : NetResult) : List Ev :=
  [.err "", .status "Generating route…"] ++
  (let start := jsTrimStr startRaw
   let dest := jsTrimStr destRaw
   let heightStr := jsTrimStr heightRaw
   if start = "" ∨ dest = "" ∨ heightStr = "" then
     [.err "Please fill in all fields before generating a route.",
      .status "Missing details"]
   else
     let v := jsParseFloat heightStr
     if v.isNaN || v.le0 then
       [.err "Vehicle height must be a positive number in metres.",
        .status "Invalid vehicle height"]
     else
       let payload := Json.obj [("start_postcode", .str start),
         ("dest_postcode", .str dest), ("vehicle_height_m", v.toJson),
         ("avoid_low_bridges", .bool avoid)]
       .request payload :: p003NetBranch net)

/-! ## src/frontend/main.js — handleGenerate -/

/-- Distance cell (src/frontend/main.js lines 158-163): a `typeof` check,
so only an actual number renders. -/
def frontendDistanceText (result : Json) : String :=
  match jsGet result "distance_km" with
  | .num q => jsToFixed 1 q ++ " km"
  | _ => "–"

/-- Time cell (src/frontend/main.js lines 165-169): whole minutes via
`toFixed(0)`. -/
def frontendTimeText (result : Json) : String :=
  match jsGet result "duration_min" with
  | .num q => jsToFixed 0 q ++ " min"
  | _ => "–"

/-- Error message thrown by `callRouteSafeAPI` on a non-2xx response
(src/frontend/main.js lines 86-100). -/
def frontendErrMsg (status : ℕ) (body : ErrBody) : String :=
  let extra :=
    match body with
    | .json b =>
      match jsGet b "detail" with
      | .null => ""
      | .str s => s
      | d => if truthy d then jsonStringify d else ""
    | _ => ""
  let base := "Error from RouteSafe API (" ++ toString status ++ ")"
  if extra != "" then base ++ ": " ++ extra else base ++ "."

/-- Render pass of the frontend success branch (lines 158-190). -/
def frontendRenderAll (result : Json) : Except JsErr (List Ev) := do
  let dt := frontendDistanceText result
  let tt := frontendTimeText result
  let brText := jsStringCoerce (jsOr (jsGet result "bridge_risk") (.str "Unknown"))
  let nearest ←
    match jsGet result "nearest_bridge_height_m", jsGet result "nearest_bridge_distance_m" with
    | .null, _ => pure "None on route"
    | _, .null => pure "None on route"
    | .num h, .num d => pure (jsToFixed 2 h ++ " m, " ++ jsToFixed 0 d ++ " m away")
    | _, _ => Except.error JsErr.typeError
  pure [.summaryF dt tt brText nearest, .mapFRender (jsGet result "geometry")]

/-- `showError` (src/frontend/main.js lines 59-70) as events. -/
def frontendShowError (msg : String) : List Ev :=
  [.err msg, .status "Error contacting RouteSafe API."]

/-- The TypeError message surfaced by `showError(err.message)` when a
render throws; its exact engine-dependent text is abstracted. -/
def jsTypeErrorMessage : String := "TypeError"

/-- Events of the frontend after the `fetch` resolves (lines 86-196). -/
def frontendNetBranch : NetResult → List Ev
  | .httpErr status body => frontendShowError (frontendErrMsg status body)
  | .okParseFail => frontendShowError jsTypeErrorMessage
  | .netFail => frontendShowError jsTypeErrorMessage
  | .ok _ data =>
    .status "Route generated successfully." ::
    (match frontendRenderAll data with
     | .ok evs => evs
     | .error _ => frontendShowError jsTypeErrorMessage)

/-- `handleGenerate` (src/frontend/main.js lines 109-197).  The height
check is `!vehicleHeight || vehicleHeight <= 0`, so `NaN`, `0` and
negatives are all rejected. -/
def frontendHandle (startRaw destRaw heightRaw : String) (avoid : Bool)
    (net : NetResult) : List Ev :=
  let start := jsTrimStr startRaw
  let dest := jsTrimStr destRaw
  let heightStr := jsTrimStr heightRaw
  if start = "" ∨ dest = "" ∨ heightStr = "" then
    frontendShowError "Please enter start location, destination and vehicle height."
  else
    let v := jsParseFloat heightStr
    if v.falsy || v.le0 then
      frontendShowError "Please enter a valid vehicle height in metres."
    else
      let payload := Json.obj [("start_postcode", .str start),
        ("dest_postcode", .str dest), ("vehicle_height_m", v.toJson),
        ("avoid_low_bridges", .bool avoid)]
      [.btn true, .btnLabel "Planning…",
        .status "Contacting RouteSafe API…", .request payload] ++
        frontendNetBranch net ++
        [.btn false, .btnLabel "Generate safe route"]

/-! ## Well-typedness domains

The amended totality claims quantify over responses whose used fields,
where present, carry the type the pipeline consumes.  Each predicate below
names exactly the evaluations that would otherwise throw. -/

/-- Safe for `x ? x.toFixed(d) : "–"`: absent, falsy, or a number. -/
def okTruthyNum (j : Json) : Bool :=
  match j with
  | .num _ => true
  | j => ! truthy j

/-- Safe for `x != null ? x.toFixed(d) : "–"`: null or a number. -/
def okNullNum (j : Json) : Bool :=
  match j with
  | .null => true
  | .num _ => true
  | _ => false

/-- Safe nearest-bridge fields of part_001 (lines 129-138). -/
def p001NearestWT (risk : Json) : Bool :=
  match jsGet risk "nearest_bridge_height_m" with
  | .null => true
  | .num _ => okNullNum (jsGet risk "nearest_bridge_distance_m")
  | _ => false

/-- Safe warning item of part_001: the selected `level` lowercases. -/
def p001WarnWT (w : Json) : Bool :=
  (jsOr (jsGet w "level") (.str "")).isStr

/-- Safe warnings value of part_001 (array of safe items, or a non-array
whose `length > 0` guard does not fire). -/
def p001WarningsWT (w : Json) : Bool :=
  match w with
  | .arr ws => ws.all p001WarnWT
  | w => ! jsLenGtZero w

/-- Safe steps value of part_001 (arrays always render; a non-array whose
`length > 0` guard fires would reach `forEach`). -/
def p001StepsWT (st : Json) : Bool :=
  match st with
  | .arr _ => true
  | st => ! jsLenGtZero st

/-- Safe geometry: not a LineString, or every kept coordinate pair is
numeric. -/
def geomWT (g : Json) : Bool :=
  ! isLineString g ||
    (geojsonCoordsToLatLngs (jsGet g "coordinates")).all fun p =>
      (latLngPoint p).isSome

/-- Well-typed bridge marker of part_001: numeric coordinates, a string (or
absent) risk level, and a numeric (or falsy) height. -/
def p001MarkerWT (b : Json) : Bool :=
  (jsNullish (jsGet b "lat") (jsGet b "latitude")).isNum &&
  (jsNullish (jsGet b "lon") (jsNullish (jsGet b "lng") (jsGet b "longitude"))).isNum &&
  (jsOr (jsGet b "risk_level") (jsOr (jsGet b "level") (.str "low"))).isStr &&
  (! truthy (jsGet b "height_m") || (jsGet b "height_m").isNum)

/-- Well-typed response for the part_001 pipeline: a JSON object whose
consumed fields, where present, carry the expected types. -/
def p001WellTyped (data : Json) : Bool :=
  data.isObj &&
  okTruthyNum (p001SelDistance data) &&
  p001NearestWT (p001SelRisk data) &&
  (jsOr (jsGet (p001SelRisk data) "level")
    (jsOr (jsGet (p001SelRisk data) "risk_level") (.str "unknown"))).isStr &&
  p001WarningsWT (p001SelWarnings data) &&
  p001StepsWT (p001SelSteps data) &&
  geomWT (extractMainGeometry data) &&
  geomWT (extractAltGeometry data) &&
  (extractBridgeMarkers data).all p001MarkerWT

/-- Well-typed hazard entry of part_003 (lines 145-154). -/
def p003HazardWT (h : Json) : Bool :=
  match jsGet h "lat", jsGet h "lon" with
  | .null, _ => true
  | _, .null => true
  | .num _, .num _ => true
  | _, _ => false

def p003HazardsWT (j : Json) : Bool :=
  match j with
  | .arr hs => hs.all p003HazardWT
  | _ => true

/-! ## Generic lemmas -/

theorem mapM_ok {α β : Type} (f : α → Except JsErr β) :
    ∀ (l : List α), (∀ a ∈ l, ∃ b, f a = .ok b) → ∃ bs, l.mapM f = .ok bs := by
  intro l
  induction l with
  | nil => intro _; exact ⟨[], rfl⟩
  | cons a t ih =>
    intro h
    obtain ⟨b, hb⟩ := h a (List.mem_cons_self a t)
    obtain ⟨bs, hbs⟩ := ih fun x hx => h x (List.mem_cons_of_mem a hx)
    refine ⟨b :: bs, ?_⟩
    rw [List.mapM_cons, hb, hbs]
    rfl

theorem mapM_ok_some {α β : Type} (f : α → Except JsErr (Option β)) :
    ∀ (l : List α), (∀ a ∈ l, ∃ b, f a = .ok (some b)) →
      ∃ bs, l.mapM f = .ok bs ∧ (bs.filterMap id).length = l.length := by
  intro l
  induction l with
  | nil => intro _; exact ⟨[], rfl, rfl⟩
  | cons a t ih =>
    intro h
    obtain ⟨b, hb⟩ := h a (List.mem_cons_self a t)
    obtain ⟨bs, hbs, hlen⟩ := ih fun x hx => h x (List.mem_cons_of_mem a hx)
    refine ⟨some b :: bs, ?_, ?_⟩
    · rw [List.mapM_cons, hb, hbs]
      rfl
    · simp [List.filterMap, hlen]

def Bounds.wf (b : Bounds) : Prop := b.minLat ≤ b.maxLat ∧ b.minLon ≤ b.maxLon

theorem holds_extend {b : Bounds} {p q : ℚ × ℚ} (h : b.holds q = true) :
    (b.extend p).holds q = true := by
  simp only [Bounds.holds, Bounds.extend, Bool.and_eq_true, decide_eq_true_eq] at h ⊢
  obtain ⟨⟨⟨h1, h2⟩, h3⟩, h4⟩ := h
  exact ⟨⟨⟨le_trans (min_le_left _ _) h1, le_trans h2 (le_max_left _ _)⟩,
    le_trans (min_le_left _ _) h3⟩, le_trans h4 (le_max_left _ _)⟩

theorem holds_extend_self (b : Bounds) (p : ℚ × ℚ) :
    (b.extend p).holds p = true := by
  simp only [Bounds.holds, Bounds.extend, Bool.and_eq_true, decide_eq_true_eq]
  exact ⟨⟨⟨min_le_right _ _, le_max_right _ _⟩, min_le_right _ _⟩, le_max_right _ _⟩

theorem holds_ofPoint (p : ℚ × ℚ) : (Bounds.ofPoint p).holds p = true := by
  simp [Bounds.holds, Bounds.ofPoint]

theorem wf_ofPoint (p : ℚ × ℚ) : (Bounds.ofPoint p).wf := ⟨le_refl _, le_refl _⟩

theorem wf_extend {b : Bounds} (h : b.wf) (p : ℚ × ℚ) : (b.extend p).wf :=
  ⟨le_trans (min_le_left _ _) (le_trans h.1 (le_max_left _ _)),
   le_trans (min_le_left _ _) (le_trans h.2 (le_max_left _ _))⟩

theorem unionFoldl_some : ∀ (l : List (ℚ × ℚ)) (b0 : Bounds),
    ∃ b, l.foldl unionStep (some b0) = some b := by
  intro l
  induction l with
  | nil => intro b0; exact ⟨b0, rfl⟩
  | cons p t ih => intro b0; simpa [unionStep] using ih (b0.extend p)

theorem unionBounds_cons_some (p : ℚ × ℚ) (t : List (ℚ × ℚ)) :
    ∃ b, unionBounds (p :: t) = some b := by
  simpa [unionBounds, unionStep] using unionFoldl_some t (Bounds.ofPoint p)

theorem unionFoldl_mono : ∀ (l : List (ℚ × ℚ)) (b0 b : Bounds),
    l.foldl unionStep (some b0) = some b →
    ∀ q, b0.holds q = true → b.holds q = true := by
  intro l
  induction l with
  | nil =>
    intro b0 b h q hq
    simp only [List.foldl_nil, Option.some.injEq] at h
    rwa [← h]
  | cons p t ih =>
    intro b0 b h q hq
    simp only [List.foldl_cons, unionStep] at h
    exact ih _ _ h q (holds_extend hq)

theorem unionFoldl_elem : ∀ (l : List (ℚ × ℚ)) (b0 b : Bounds),
    l.foldl unionStep (some b0) = some b →
    ∀ p ∈ l, b.holds p = true := by
  intro l
  induction l with
  | nil => intro _ _ _ p hp; cases hp
  | cons x t ih =>
    intro b0 b h p hp
    simp only [List.foldl_cons, unionStep] at h
    rcases List.mem_cons.mp hp with rfl | hp
    · exact unionFoldl_mono t _ _ h p (holds_extend_self b0 p)
    · exact ih _ _ h p hp

theorem unionBounds_holds {pts : List (ℚ × ℚ)} {b : Bounds}
    (h : unionBounds pts = some b) : ∀ p ∈ pts, b.holds p = true := by
  cases pts with
  | nil => intro p hp; cases hp
  | cons x t =>
    intro p hp
    simp only [unionBounds, List.foldl_cons, unionStep] at h
    rcases List.mem_cons.mp hp with rfl | hp
    · exact unionFoldl_mono t _ _ h p (holds_ofPoint p)
    · exact unionFoldl_elem t _ _ h p hp

theorem unionFoldl_wf : ∀ (l : List (ℚ × ℚ)) (b0 b : Bounds),
    l.foldl unionStep (some b0) = some b → b0.wf → b.wf := by
  intro l
  induction l with
  | nil =>
    intro b0 b h hw
    simp only [List.foldl_nil, Option.some.injEq] at h
    rwa [← h]
  | cons p t ih =>
    intro b0 b h hw
    simp only [List.foldl_cons, unionStep] at h
    exact ih _ _ h (wf_extend hw p)

theorem unionBounds_wf {pts : List (ℚ × ℚ)} {b : Bounds}
    (h : unionBounds pts = some b) : b.wf := by
  cases pts with
  | nil => simp [unionBounds] at h
  | cons x t =>
    simp only [unionBounds, List.foldl_cons, unionStep] at h
    exact unionFoldl_wf t _ _ h (wf_ofPoint x)

theorem pad_holds {b : Bounds} {r : ℚ} (hw : b.wf) (hr : 0 ≤ r) {p : ℚ × ℚ}
    (h : b.holds p = true) : (b.pad r).holds p = true := by
  simp only [Bounds.holds, Bounds.pad, Bool.and_eq_true, decide_eq_true_eq] at h ⊢
  have hh : 0 ≤ (b.maxLat - b.minLat) * r := mul_nonneg (by linarith [hw.1]) hr
  have hwv : 0 ≤ (b.maxLon - b.minLon) * r := mul_nonneg (by linarith [hw.2]) hr
  obtain ⟨⟨⟨h1, h2⟩, h3⟩, h4⟩ := h
  exact ⟨⟨⟨by linarith, by linarith⟩, by linarith⟩, by linarith⟩

section
/- `decide`/`rfl` evaluation of concrete rationals needs the Batteries
rational arithmetic to unfold. -/
attribute [local semireducible] Rat.add Rat.mul Rat.sub Rat.inv

/-! ## Lemmas on the postcode cleaner (towards C10) -/

theorem ws_toUpper_not_alnum {c : Char} (h : isWSChar c = true) :
    isUpperAlnumChar (jsToUpperChar c) = false := by
  simp only [isWSChar, Bool.or_eq_true, beq_iff_eq] at h
  rcases h with ((((h | h) | h) | h) | h) | h <;> subst h <;> decide

theorem cleanList_dropWhile (l : List Char) :
    cleanList (l.dropWhile isWSChar) = cleanList l := by
  induction l with
  | nil => rfl
  | cons c t ih =>
    rw [List.dropWhile_cons]
    by_cases h : isWSChar c = true
    · rw [if_pos h, ih]
      simp [cleanList, List.filter_cons, ws_toUpper_not_alnum h]
    · rw [if_neg h]

theorem cleanList_reverse (l : List Char) :
    cleanList l.reverse = (cleanList l).reverse := by
  simp [cleanList, List.filter_reverse]

theorem cleanList_trim (l : List Char) :
    cleanList (trimCharList l) = cleanList l := by
  unfold trimCharList
  rw [cleanList_reverse, cleanList_dropWhile, cleanList_reverse,
    List.reverse_reverse, cleanList_dropWhile]

theorem alnum_toUpper_fixed {c : Char} (h : isUpperAlnumChar c = true) :
    jsToUpperChar c = c := by
  simp only [isUpperAlnumChar, Bool.or_eq_true, Bool.and_eq_true,
    decide_eq_true_eq] at h
  unfold jsToUpperChar
  rcases h with ⟨h1, h2⟩ | ⟨h1, h2⟩ <;>
    · rw [if_neg]
      intro hc
      exact absurd (le_trans hc.1 h2) (by decide)

theorem cleanList_fixpoint (x : List Char)
    (hx : ∀ c ∈ x, isUpperAlnumChar c = true) : cleanList x = x := by
  unfold cleanList
  have hm : x.map jsToUpperChar = x := by
    conv_rhs => rw [← List.map_id x]
    exact List.map_congr_left fun c hc => alnum_toUpper_fixed (hx c hc)
  rw [hm]
  exact List.filter_eq_self.mpr hx

theorem cleanList_append (x y : List Char) :
    cleanList (x ++ y) = cleanList x ++ cleanList y := by
  simp [cleanList, List.filter_append]

theorem cleanPC_trim (v : String) : cleanPC (jsTrimStr v) = cleanPC v := by
  show String.mk (cleanList (trimCharList v.data)) = _
  rw [cleanList_trim]
  rfl

theorem dropWhile_dropWhile (p : Char → Bool) (l : List Char) :
    (l.dropWhile p).dropWhile p = l.dropWhile p := by
  induction l with
  | nil => rfl
  | cons c t ih =>
    rw [List.dropWhile_cons]
    by_cases h : p c = true
    · rw [if_pos h]; exact ih
    · rw [if_neg h, List.dropWhile_cons, if_neg h]

theorem head_dropWhile {p : Char → Bool} :
    ∀ (l : List Char) {c t}, l.dropWhile p = c :: t → p c = false := by
  intro l
  induction l with
  | nil => intro c t h; cases h
  | cons a l ih =>
    intro c t h
    rw [List.dropWhile_cons] at h
    by_cases ha : p a = true
    · rw [if_pos ha] at h; exact ih h
    · rw [if_neg ha] at h
      cases h
      exact Bool.eq_false_iff.mpr ha

theorem trimCharList_idem (l : List Char) :
    trimCharList (trimCharList l) = trimCharList l := by
  set x := l.dropWhile isWSChar with hx
  set z := x.reverse.dropWhile isWSChar with hz
  have hsuf : z <:+ x.reverse := List.dropWhile_suffix _
  have hpre : z.reverse <+: x := List.reverse_suffix.mp (by simpa using hsuf)
  have hdw : z.reverse.dropWhile isWSChar = z.reverse := by
    cases hzr : z.reverse with
    | nil => rfl
    | cons c t =>
      obtain ⟨u, hu⟩ := hpre
      rw [hzr] at hu
      have hxc : l.dropWhile isWSChar = c :: (t ++ u) := by
        rw [← hx, ← hu]; rfl
      have hc : isWSChar c = false := head_dropWhile _ hxc
      rw [List.dropWhile_cons, if_neg (by simp [hc])]
  show ((z.reverse.dropWhile isWSChar).reverse.dropWhile isWSChar).reverse = z.reverse
  rw [hdw, List.reverse_reverse, hz, dropWhile_dropWhile]

theorem jsTrimStr_idem (v : String) : jsTrimStr (jsTrimStr v) = jsTrimStr v := by
  show String.mk (trimCharList (trimCharList v.data)) = _
  rw [trimCharList_idem]
  rfl

theorem normalisePostcode_spec (v : String) :
    ((cleanPC v).length < 5 ∨ 7 < (cleanPC v).length →
      normalisePostcode v = jsTrimStr v) ∧
    (¬ ((cleanPC v).length < 5 ∨ 7 < (cleanPC v).length) →
      normalisePostcode v =
        String.mk ((cleanPC v).data.take ((cleanPC v).length - 3)) ++ " " ++
        String.mk ((cleanPC v).data.drop ((cleanPC v).length - 3))) := by
  constructor
  · intro h
    by_cases hv : v = ""
    · subst hv; rfl
    · simp only [normalisePostcode, if_neg hv, if_pos h]
  · intro h
    have hv : v ≠ "" := by
      intro hv
      subst hv
      exact h (Or.inl (by decide))
    simp only [normalisePostcode, if_neg hv, if_neg h]

theorem mem_cleanPC_alnum {v : String} {c : Char} (h : c ∈ (cleanPC v).data) :
    isUpperAlnumChar c = true :=
  (List.mem_filter.mp h).2

theorem cleanPC_of_spaced (v : String)
    (hn : ¬ ((cleanPC v).length < 5 ∨ 7 < (cleanPC v).length)) :
    cleanPC (String.mk ((cleanPC v).data.take ((cleanPC v).length - 3)) ++ " " ++
      String.mk ((cleanPC v).data.drop ((cleanPC v).length - 3))) = cleanPC v := by
  set a := (cleanPC v).data.take ((cleanPC v).length - 3) with ha
  set b := (cleanPC v).data.drop ((cleanPC v).length - 3) with hb
  have hdata : (String.mk a ++ " " ++ String.mk b).data = (a ++ [Char.ofNat 32]) ++ b := rfl
  show String.mk (cleanList ((String.mk a ++ " " ++ String.mk b).data)) = _
  rw [hdata, cleanList_append, cleanList_append]
  have hca : cleanList a = a :=
    cleanList_fixpoint a fun c hc => mem_cleanPC_alnum (List.take_subset _ _ hc)
  have hcb : cleanList b = b :=
    cleanList_fixpoint b fun c hc => mem_cleanPC_alnum (List.drop_subset _ _ hc)
  have hsp : cleanList [Char.ofNat 32] = [] := by decide
  rw [hca, hcb, hsp, List.append_nil, List.take_append_drop]

theorem normalisePostcode_idem (v : String) :
    normalisePostcode (normalisePostcode v) = normalisePostcode v := by
  by_cases hn : (cleanPC v).length < 5 ∨ 7 < (cleanPC v).length
  · rw [(normalisePostcode_spec v).1 hn]
    by_cases ht : jsTrimStr v = ""
    · rw [ht]; rfl
    · have hct : cleanPC (jsTrimStr v) = cleanPC v := cleanPC_trim v
      have hn2 : (cleanPC (jsTrimStr v)).length < 5 ∨ 7 < (cleanPC (jsTrimStr v)).length := by
        rwa [hct]
      rw [(normalisePostcode_spec (jsTrimStr v)).1 hn2]
      exact jsTrimStr_idem v
  · rw [(normalisePostcode_spec v).2 hn]
    set w := String.mk ((cleanPC v).data.take ((cleanPC v).length - 3)) ++ " " ++
      String.mk ((cleanPC v).data.drop ((cleanPC v).length - 3)) with hw
    have hcw : cleanPC w = cleanPC v := cleanPC_of_spaced v hn
    have hn2 : ¬ ((cleanPC w).length < 5 ∨ 7 < (cleanPC w).length) := by rwa [hcw]
    rw [(normalisePostcode_spec w).2 hn2, hcw]

/-- **C10**: the postcode cleaner `normalisePostcode` (part_000 lines
208-216) is idempotent, and for every input whose uppercased
alphanumeric-only form has length 5 to 7 it returns that form with a single
space inserted before the last three characters, otherwise the trimmed
original input.  (The submit handler of the same file, lines 227-247, sends
these rewritten values to the backend.) -/
theorem C10_normalisePostcode :
    (∀ v, normalisePostcode (normalisePostcode v) = normalisePostcode v) ∧
    (∀ v, (5 ≤ (cleanPC v).length ∧ (cleanPC v).length ≤ 7 →
        normalisePostcode v =
          String.mk ((cleanPC v).data.take ((cleanPC v).length - 3)) ++ " " ++
          String.mk ((cleanPC v).data.drop ((cleanPC v).length - 3))) ∧
      ((cleanPC v).length < 5 ∨ 7 < (cleanPC v).length →
        normalisePostcode v = jsTrimStr v)) := by
  refine ⟨normalisePostcode_idem, fun v => ⟨fun h => ?_, (normalisePostcode_spec v).1⟩⟩
  exact (normalisePostcode_spec v).2 (by omega)

/-- Witness for C10 at the concrete input `"ls1 4dy"`. -/
theorem C10_normalisePostcode_witness :
    (5 ≤ (cleanPC "ls1 4dy").length ∧ (cleanPC "ls1 4dy").length ≤ 7) ∧
    normalisePostcode "ls1 4dy" =
      String.mk ((cleanPC "ls1 4dy").data.take ((cleanPC "ls1 4dy").length - 3)) ++ " " ++
      String.mk ((cleanPC "ls1 4dy").data.drop ((cleanPC "ls1 4dy").length - 3)) :=
  ⟨⟨by decide, by decide⟩, (C10_normalisePostcode.2 "ls1 4dy").1 ⟨by decide, by decide⟩⟩

/-- **C5**: map rendering is idempotent on the drawn layers: both
`updateMap` (src/main.js lines 144-153 clear every tracked layer before
drawing) and `drawRouteOnMap` (part_001 lines 240-252) give, on a second
run over the same data, exactly the state of the first run — layers and
fitted view included, with no layer accumulation. -/
theorem C5_render_idempotent :
    (∀ (data : Json) (s : MapState),
      (mainjsUpdateMap data s).bind (mainjsUpdateMap data) =
        mainjsUpdateMap data s) ∧
    (∀ (mainGeom altGeom : Json) (bridgeMarkers : List Json) (m : Map3),
      (p001DrawRouteOnMap mainGeom altGeom bridgeMarkers m).bind
          (p001DrawRouteOnMap mainGeom altGeom bridgeMarkers) =
        p001DrawRouteOnMap mainGeom altGeom bridgeMarkers m) := by
  constructor
  · intro data s
    cases h : mainjsMapCore data with
    | error e => simp [mainjsUpdateMap, h, Except.map, Except.bind]
    | ok r =>
      cases r with
      | mk l fit =>
        cases fit with
        | none => simp [mainjsUpdateMap, h, Except.map, Except.bind]
        | some b => simp [mainjsUpdateMap, h, Except.map, Except.bind]
  · intro mg ag mks m
    cases h : p001DrawCore mg ag mks with
    | error e => simp [p001DrawRouteOnMap, h, Except.map, Except.bind]
    | ok r =>
      cases r with
      | mk l fit =>
        cases fit with
        | none => simp [p001DrawRouteOnMap, h, Except.map, Except.bind]
        | some b => simp [p001DrawRouteOnMap, h, Except.map, Except.bind]

theorem isNaN_falsy {v : JSNum} (h : v.isNaN = true) : v.falsy = true := by
  cases v <;> simp_all [JSNum.isNaN, JSNum.falsy]

/-- **C2** (amended): in src/frontend/main.js a non-numeric or ≤ 0 height is
rejected before any request; in src/main.js only a non-numeric height is
rejected — a height ≤ 0 passes its validation (see the counterexample).
In both files no validation failure issues a network request: a request
event implies every check passed. -/
theorem C2_height_validation :
    (∀ s e h a net, (jsParseFloat (jsTrimStr h)).isNaN = true →
      hasRequest (mainjsSubmit s e h a net) = false) ∧
    (∀ s e h a net,
      ((jsParseFloat (jsTrimStr h)).isNaN = true ∨
        (jsParseFloat (jsTrimStr h)).le0 = true) →
      hasRequest (frontendHandle s e h a net) = false) ∧
    (∀ s e h a net, hasRequest (mainjsSubmit s e h a net) = true →
      jsTrimStr s ≠ "" ∧ jsTrimStr e ≠ "" ∧ jsTrimStr h ≠ "" ∧
        (jsParseFloat (jsTrimStr h)).isNaN = false) ∧
    (∀ s e h a net, hasRequest (frontendHandle s e h a net) = true →
      jsTrimStr s ≠ "" ∧ jsTrimStr e ≠ "" ∧ jsTrimStr h ≠ "" ∧
        (jsParseFloat (jsTrimStr h)).falsy = false ∧
        (jsParseFloat (jsTrimStr h)).le0 = false) := by
  refine ⟨?_, ?_, ?_, ?_⟩
  · intro s e h a net hn
    by_cases hc : jsTrimStr s = "" ∨ jsTrimStr e = "" ∨ jsTrimStr h = ""
    · simp [mainjsSubmit, if_pos hc, hasRequest, Ev.isRequest]
    · simp [mainjsSubmit, if_neg hc, hn, hasRequest, Ev.isRequest]
  · intro s e h a net hn
    have hf : ((jsParseFloat (jsTrimStr h)).falsy ||
        (jsParseFloat (jsTrimStr h)).le0) = true := by
      rcases hn with hn | hn
      · simp [isNaN_falsy hn]
      · simp [hn]
    by_cases hc : jsTrimStr s = "" ∨ jsTrimStr e = "" ∨ jsTrimStr h = ""
    · simp [frontendHandle, if_pos hc, frontendShowError, hasRequest, Ev.isRequest]
    · simp [frontendHandle, if_neg hc, hf, frontendShowError, hasRequest, Ev.isRequest]
  · intro s e h a net hr
    by_cases hc : jsTrimStr s = "" ∨ jsTrimStr e = "" ∨ jsTrimStr h = ""
    · simp [mainjsSubmit, if_pos hc, hasRequest, Ev.isRequest] at hr
    · by_cases hn : (jsParseFloat (jsTrimStr h)).isNaN = true
      · simp [mainjsSubmit, if_neg hc, hn, hasRequest, Ev.isRequest] at hr
      · push_neg at hc
        exact ⟨hc.1, hc.2.1, hc.2.2, by simpa using hn⟩
  · intro s e h a net hr
    by_cases hc : jsTrimStr s = "" ∨ jsTrimStr e = "" ∨ jsTrimStr h = ""
    · simp [frontendHandle, if_pos hc, frontendShowError, hasRequest, Ev.isRequest] at hr
    · by_cases hf : ((jsParseFloat (jsTrimStr h)).falsy ||
          (jsParseFloat (jsTrimStr h)).le0) = true
      · simp [frontendHandle, if_neg hc, hf, frontendShowError, hasRequest,
          Ev.isRequest] at hr
      · push_neg at hc
        simp only [Bool.or_eq_true, not_or, Bool.not_eq_true] at hf
        exact ⟨hc.1, hc.2.1, hc.2.2, hf.1, hf.2⟩

/-- C2 counterexample: in src/main.js (lines 237-246) a submission with
height string "0" — which parses to 0 ≤ 0 — passes validation and the
request is issued, so the claim "validation fails with invalidHeight for
every height ≤ 0, before any request is built" is false of this handler. -/
theorem C2_counterexample :
    hasRequest (mainjsSubmit "Leeds" "Manchester" "0" true .netFail) = true ∧
    (jsParseFloat (jsTrimStr "0")).le0 = true := by
  constructor
  · rfl
  · decide

/-- Witness for C2 at "abc" (non-numeric, src/main.js) and "-2" (≤ 0,
src/frontend/main.js). -/
theorem C2_height_validation_witness :
    ((jsParseFloat (jsTrimStr "abc")).isNaN = true ∧
      hasRequest (mainjsSubmit "A" "B" "abc" true .netFail) = false) ∧
    ((jsParseFloat (jsTrimStr "-2")).le0 = true ∧
      hasRequest (frontendHandle "A" "B" "-2" true .netFail) = false) :=
  ⟨⟨rfl, C2_height_validation.1 "A" "B" "abc" true .netFail rfl⟩,
   ⟨by decide, C2_height_validation.2.1 "A" "B" "-2" true .netFail (Or.inr (by decide))⟩⟩


/-- **C3** (amended): for every non-2xx response whose JSON body carries a
string `detail`, the src/main.js client (setupForm, lines 269-281) shows a
status-banner message that embeds the detail text verbatim — prefixed
"Could not generate route: RouteSafe-AI error <status>: " and suffixed
"." — rather than the bare detail; no render event runs, and the page
state is unchanged except for the status text and the re-enabled submit
control, so previously rendered results and map state stay intact.  The
backend (part_000, api_route lines 105-117) produces exactly such a
response — status 400, detail "Vehicle height must be > 0" — for every
height ≤ 0. -/
theorem C3_error_banner :
    (∀ s e h a status detail,
      jsTrimStr s ≠ "" → jsTrimStr e ≠ "" → jsTrimStr h ≠ "" →
      (jsParseFloat (jsTrimStr h)).isNaN = false →
      hasRenderEv (mainjsSubmit s e h a
        (.httpErr status (.json (.obj [("detail", .str detail)])))) = false ∧
      detail.data <:+:
        ("Could not generate route: RouteSafe-AI error " ++ toString status ++
          ": " ++ detail ++ ".").data ∧
      (∀ st0 : ClientState,
        applyTrace st0 (mainjsSubmit s e h a
          (.httpErr status (.json (.obj [("detail", .str detail)])))) =
        { st0 with
            statusText := "Could not generate route: RouteSafe-AI error " ++
              toString status ++ ": " ++ detail ++ "."
            btnDisabled := false })) ∧
    (∀ req : RouteRequest, req.vehicle_height_m ≤ 0 →
      api_route req = .error (400, "Vehicle height must be > 0")) := by
  constructor
  · intro s e h a status detail hs he hh hn
    have hc : ¬ (jsTrimStr s = "" ∨ jsTrimStr e = "" ∨ jsTrimStr h = "") := by
      simp [hs, he, hh]
    have htr : mainjsSubmit s e h a
        (.httpErr status (.json (.obj [("detail", .str detail)]))) =
        [.btn true, .status "Requesting safe HGV route from RouteSafe-AI…",
         .request (Json.obj [("start", .str (jsTrimStr s)),
           ("end", .str (jsTrimStr e)),
           ("vehicle_height_m", (jsParseFloat (jsTrimStr h)).toJson),
           ("avoid_low_bridges", .bool a)]),
         .status ("Could not generate route: RouteSafe-AI error " ++
           toString status ++ ": " ++ detail ++ "."),
         .btn false] := by
      simp only [mainjsSubmit, if_neg hc, hn, Bool.false_eq_true, if_false,
        mainjsNetBranch, mainjsErrDetail, jsGet, List.lookup]
      simp
    refine ⟨?_, ?_, ?_⟩
    · rw [htr]; rfl
    · refine ⟨("Could not generate route: RouteSafe-AI error " ++
        toString status ++ ": ").data, ".".data, ?_⟩
      simp [String.data_append]
    · intro st0
      rw [htr]
      simp [applyTrace, applyEv]
  · intro req hreq
    simp [api_route, hreq]

/-- C3 counterexample: for the backend's own 400 response with detail
"Vehicle height must be > 0", the src/main.js status banner is the wrapped
message, which differs from the bare detail text the claim requires. -/
theorem C3_counterexample :
    finalStatus (mainjsSubmit "A" "B" "3" true
      (.httpErr 400 (.json (.obj [("detail", .str "Vehicle height must be > 0")])))) =
      some "Could not generate route: RouteSafe-AI error 400: Vehicle height must be > 0." ∧
    "Could not generate route: RouteSafe-AI error 400: Vehicle height must be > 0." ≠
      "Vehicle height must be > 0" := by
  constructor
  · rfl
  · decide

/-- Witness for C3 at a concrete passing submission and a concrete ≤ 0
request. -/
theorem C3_error_banner_witness :
    hasRenderEv (mainjsSubmit "Leeds" "York" "3.2" true
      (.httpErr 400 (.json (.obj [("detail", .str "Vehicle height must be > 0")])))) = false ∧
    api_route ⟨"Leeds", "York", -1, true⟩ = .error (400, "Vehicle height must be > 0") :=
  ⟨(C3_error_banner.1 "Leeds" "York" "3.2" true 400 "Vehicle height must be > 0"
      (by decide) (by decide) (by decide) (by decide)).1,
   C3_error_banner.2 ⟨"Leeds", "York", -1, true⟩ (by decide)⟩


def evClean (e : Ev) : Bool := !e.isBtn && !e.isRequest

theorem renderAll_clean {data : Json} {evs : List Ev}
    (h : mainjsRenderAll data = .ok evs) : evs.all evClean = true := by
  unfold mainjsRenderAll at h
  cases hr : mainjsRenderData data with
  | error e => rw [hr] at h; simp [Except.map] at h
  | ok r =>
    rw [hr] at h
    simp only [Except.map, Except.ok.injEq] at h
    subst h
    rfl

theorem netBranch_clean (net : NetResult) :
    (mainjsNetBranch net).all evClean = true := by
  cases net with
  | httpErr status body => cases body <;> rfl
  | okParseFail => rfl
  | netFail => rfl
  | ok isJson data =>
    cases isJson with
    | false => rfl
    | true =>
      simp only [mainjsNetBranch]
      cases htr : truthy data with
      | false => simp [htr, evClean, Ev.isBtn, Ev.isRequest]
      | true =>
        simp only [htr]
        cases hra : mainjsRenderAll data with
        | error e => simp [evClean, Ev.isBtn, Ev.isRequest]
        | ok evs =>
          simp only [List.all_append]
          simp [renderAll_clean hra, evClean, Ev.isBtn, Ev.isRequest]

theorem clean_rdf : ∀ (evs : List Ev), evs.all evClean = true →
    ∀ d rest, requestsDisabledFrom d (evs ++ rest) = requestsDisabledFrom d rest := by
  intro evs
  induction evs with
  | nil => intro _ d rest; rfl
  | cons e t ih =>
    intro h d rest
    simp only [List.all_cons, Bool.and_eq_true] at h
    cases e <;>
      first
        | exact ih h.2 d rest
        | simp [evClean, Ev.isBtn, Ev.isRequest] at h

theorem clean_no_btn : ∀ (evs : List Ev), evs.all evClean = true →
    evs.filterMap (fun e =>
      match e with
      | .btn b => some b
      | _ => none) = [] := by
  intro evs
  induction evs with
  | nil => intro _; rfl
  | cons e t ih =>
    intro h
    simp only [List.all_cons, Bool.and_eq_true] at h
    cases e <;>
      first
        | exact ih h.2
        | simp [evClean, Ev.isBtn, Ev.isRequest] at h

theorem p003RenderAll_nobtn {data : Json} {evs : List Ev}
    (h : p003RenderAll data = .ok evs) : evs.all (fun e => !e.isBtn) = true := by
  unfold p003RenderAll at h
  cases hr : p003RenderData data with
  | error e => rw [hr] at h; simp [Except.map] at h
  | ok r =>
    rw [hr] at h
    simp only [Except.map, Except.ok.injEq] at h
    subst h
    rfl

theorem p003NetBranch_nobtn (net : NetResult) :
    (p003NetBranch net).all (fun e => !e.isBtn) = true := by
  cases net with
  | httpErr status body => rfl
  | okParseFail => rfl
  | netFail => rfl
  | ok isJson data =>
    simp only [p003NetBranch]
    cases hra : p003RenderAll data with
    | error e => rfl
    | ok evs =>
      rw [List.all_append, p003RenderAll_nobtn hra]
      rfl

theorem no_btn_of_all {evs : List Ev}
    (h : evs.all (fun e => !e.isBtn) = true) : hasBtnEv evs = false := by
  simp only [List.all_eq_true, Bool.not_eq_true'] at h
  simp only [hasBtnEv]
  rw [List.any_eq_false]
  intro x hx
  simp [h x hx]

/-- **C9** (amended): in src/main.js (setupForm, lines 248-303) every
submission that passes validation disables the submit control before the
request is issued and re-enables it as the final control action on every
completion path — success, non-2xx response, parse failure, and network
failure.  In part_003 (handleGenerateRoute, lines 159-233) the submit
control is never touched: the request goes out with the control still
enabled (see the counterexample), so nothing is ever left disabled there
only trivially. -/
theorem C9_submit_control :
    (∀ s e h a net, jsTrimStr s ≠ "" → jsTrimStr e ≠ "" → jsTrimStr h ≠ "" →
      (jsParseFloat (jsTrimStr h)).isNaN = false →
      requestsDisabled (mainjsSubmit s e h a net) = true ∧
      hasRequest (mainjsSubmit s e h a net) = true ∧
      lastBtn (mainjsSubmit s e h a net) = some false) ∧
    (∀ s e h a net, hasBtnEv (p003Handle s e h a net) = false) := by
  constructor
  · intro s e h a net hs he hh hn
    have hc : ¬ (jsTrimStr s = "" ∨ jsTrimStr e = "" ∨ jsTrimStr h = "") := by
      simp [hs, he, hh]
    have htr : mainjsSubmit s e h a net =
        Ev.btn true :: Ev.status "Requesting safe HGV route from RouteSafe-AI…" ::
        Ev.request (Json.obj [("start", .str (jsTrimStr s)),
          ("end", .str (jsTrimStr e)),
          ("vehicle_height_m", (jsParseFloat (jsTrimStr h)).toJson),
          ("avoid_low_bridges", .bool a)]) ::
        (mainjsNetBranch net ++ [Ev.btn false]) := by
      simp only [mainjsSubmit, if_neg hc, hn, Bool.false_eq_true, if_false]
      simp
    refine ⟨?_, ?_, ?_⟩
    · rw [htr]
      show requestsDisabledFrom true (mainjsNetBranch net ++ [Ev.btn false]) = true
      rw [clean_rdf _ (netBranch_clean net)]
      rfl
    · rw [htr]; rfl
    · rw [htr]
      show (List.filterMap _ (Ev.btn true :: Ev.status _ :: Ev.request _ ::
        (mainjsNetBranch net ++ [Ev.btn false]))).getLast? = some false
      simp only [List.filterMap_cons, List.filterMap_append,
        clean_no_btn _ (netBranch_clean net)]
      rfl
  · intro s e h a net
    apply no_btn_of_all
    simp only [p003Handle]
    by_cases hc : jsTrimStr s = "" ∨ jsTrimStr e = "" ∨ jsTrimStr h = ""
    · rw [if_pos hc]; rfl
    · rw [if_neg hc]
      by_cases hv : ((jsParseFloat (jsTrimStr h)).isNaN ||
          (jsParseFloat (jsTrimStr h)).le0) = true
      · rw [if_pos hv]; rfl
      · rw [if_neg hv]
        simp only [List.cons_append, List.nil_append, List.all_cons, Bool.and_eq_true]
        exact ⟨rfl, rfl, rfl, p003NetBranch_nobtn net⟩

/-- C9 counterexample: a valid part_003 submission issues its request with
no disable event anywhere in the trace — the control is not disabled before
the network call, contradicting the claim for this handler. -/
theorem C9_counterexample :
    hasBtnEv (p003Handle "LS1 1AA" "M1 1AE" "4.5" true .netFail) = false ∧
    hasRequest (p003Handle "LS1 1AA" "M1 1AE" "4.5" true .netFail) = true := by
  constructor
  · rfl
  · decide

/-- Witness for C9 at a concrete passing src/main.js submission. -/
theorem C9_submit_control_witness :
    requestsDisabled (mainjsSubmit "Leeds" "York" "4.5" true .netFail) = true ∧
    lastBtn (mainjsSubmit "Leeds" "York" "4.5" true .netFail) = some false :=
  ⟨((C9_submit_control.1 "Leeds" "York" "4.5" true .netFail
      (by decide) (by decide) (by decide) (by decide))).1,
   ((C9_submit_control.1 "Leeds" "York" "4.5" true .netFail
      (by decide) (by decide) (by decide) (by decide))).2.2⟩


theorem jsNullish_of_ne {x y : Json} (h : x ≠ .null) : jsNullish x y = x := by
  cases x <;> simp_all [jsNullish]

theorem jsOr_of_truthy {x y : Json} (h : truthy x = true) : jsOr x y = x := by
  simp [jsOr, h]

theorem jsOr_of_falsy {x y : Json} (h : truthy x = false) : jsOr x y = y := by
  simp [jsOr, h]

/-- **C4** (amended): src/main.js resolves distance and duration through the
three claimed candidates in the claimed order (`?? `-chains, lines 44-54),
but part_001's handleRouteResponse (lines 111-113) has only the first two
candidates (no `summary.distance`/`summary.duration` fallback); and the
warnings order differs per copy: part_001 (line 116) tries `warnings` then
`bridge_warnings` as the claim states, while src/main.js (lines 59, 96,
193) tries `bridge_warnings` first (see the counterexample). -/
theorem C4_fallback_chains :
    (∀ d, jsGet d "distance_km" ≠ .null →
      mainjsSelDistance d = jsGet d "distance_km") ∧
    (∀ d, jsGet d "distance_km" = .null →
      jsGet (jsGet d "summary") "distance_km" ≠ .null →
      mainjsSelDistance d = jsGet (jsGet d "summary") "distance_km") ∧
    (∀ d, jsGet d "distance_km" = .null →
      jsGet (jsGet d "summary") "distance_km" = .null →
      mainjsSelDistance d = jsGet (jsGet d "summary") "distance") ∧
    (∀ d, jsGet d "duration_min" ≠ .null →
      mainjsSelDuration d = jsGet d "duration_min") ∧
    (∀ d, jsGet d "duration_min" = .null →
      jsGet (jsGet d "summary") "duration_min" ≠ .null →
      mainjsSelDuration d = jsGet (jsGet d "summary") "duration_min") ∧
    (∀ d, jsGet d "duration_min" = .null →
      jsGet (jsGet d "summary") "duration_min" = .null →
      mainjsSelDuration d = jsGet (jsGet d "summary") "duration") ∧
    (∀ d, jsGet d "distance_km" = .null →
      p001SelDistance d = jsGet (jsGet d "summary") "distance_km") ∧
    (∀ d, jsGet d "duration_min" = .null →
      p001SelDuration d = jsGet (jsGet d "summary") "duration_min") ∧
    (∀ d, truthy (jsGet d "bridge_warnings") = true →
      mainjsSelWarnings d = jsGet d "bridge_warnings") ∧
    (∀ d, truthy (jsGet d "bridge_warnings") = false →
      truthy (jsGet d "warnings") = true →
      mainjsSelWarnings d = jsGet d "warnings") ∧
    (∀ d, truthy (jsGet d "warnings") = true →
      p001SelWarnings d = jsGet d "warnings") ∧
    (∀ d, truthy (jsGet d "warnings") = false →
      truthy (jsGet d "bridge_warnings") = true →
      p001SelWarnings d = jsGet d "bridge_warnings") := by
  refine ⟨?_, ?_, ?_, ?_, ?_, ?_, ?_, ?_, ?_, ?_, ?_, ?_⟩
  · intro d h
    exact jsNullish_of_ne h
  · intro d h1 h2
    rw [mainjsSelDistance, h1, jsNullish]
    exact jsNullish_of_ne h2
  · intro d h1 h2
    rw [mainjsSelDistance, h1, jsNullish, h2, jsNullish]
  · intro d h
    exact jsNullish_of_ne h
  · intro d h1 h2
    rw [mainjsSelDuration, h1, jsNullish]
    exact jsNullish_of_ne h2
  · intro d h1 h2
    rw [mainjsSelDuration, h1, jsNullish, h2, jsNullish]
  · intro d h
    rw [p001SelDistance, h, jsNullish]
  · intro d h
    rw [p001SelDuration, h, jsNullish]
  · intro d h
    exact jsOr_of_truthy h
  · intro d h1 h2
    rw [mainjsSelWarnings, jsOr_of_falsy h1, jsOr_of_truthy h2]
  · intro d h
    exact jsOr_of_truthy h
  · intro d h1 h2
    rw [p001SelWarnings, jsOr_of_falsy h1, jsOr_of_truthy h2]

/-- C4 counterexample: with both `warnings` and `bridge_warnings` present,
src/main.js renders the warnings list from `bridge_warnings`, not from
`warnings` as the claimed order requires. -/
theorem C4_counterexample :
    (match mainjsUpdateWarnings (Json.obj
        [("warnings", .arr [.obj [("description", .str "from-warnings")]]),
         ("bridge_warnings", .arr [.obj [("description", .str "from-bridge-warnings")]])]) with
      | .ok w => w
      | .error _ => none) = some ["from-bridge-warnings"] ∧
    some ["from-bridge-warnings"] ≠ some ["from-warnings"] := by
  constructor
  · rfl
  · decide

/-- Witness for C4: the third distance candidate is reached in src/main.js,
and part_001 takes `warnings` over `bridge_warnings`. -/
theorem C4_fallback_chains_witness :
    mainjsSelDistance (Json.obj [("summary", Json.obj [("distance", Json.num 5)])]) =
      Json.num 5 ∧
    p001SelWarnings (Json.obj [("warnings", .arr [.str "w"]),
      ("bridge_warnings", .arr [.str "b"])]) = .arr [.str "w"] :=
  ⟨C4_fallback_chains.2.2.1 (Json.obj [("summary", Json.obj [("distance", Json.num 5)])])
      rfl rfl,
   C4_fallback_chains.2.2.2.2.2.2.2.2.2.2.1
      (Json.obj [("warnings", .arr [.str "w"]), ("bridge_warnings", .arr [.str "b"])]) rfl⟩


theorem exbind_ok {α β : Type} (a : α) (f : α → Except JsErr β) :
    (Except.ok a >>= f) = f a := rfl

theorem exbind_error {α β : Type} (e : JsErr) (f : α → Except JsErr β) :
    ((Except.error e : Except JsErr α) >>= f) = Except.error e := rfl

theorem mainjsUpdateSummary_texts {data : Json} {v : SummaryViews}
    (h : mainjsUpdateSummary data = .ok v) :
    fixedOrDash 1 (mainjsSelDistance data) " km" = .ok v.distanceText ∧
    fixedOrDash 1 (mainjsSelDuration data) " min" = .ok v.durationText := by
  unfold mainjsUpdateSummary at h
  cases h1 : fixedOrDash 1 (mainjsSelDistance data) " km" with
  | error e => rw [h1, exbind_error] at h; simp at h
  | ok dt =>
    rw [h1, exbind_ok] at h
    cases h2 : fixedOrDash 1 (mainjsSelDuration data) " min" with
    | error e => rw [h2, exbind_error] at h; simp at h
    | ok du =>
      rw [h2, exbind_ok] at h
      cases h3 : mainjsRiskBadgeE (mainjsSelWarnings data) with
      | error e => rw [h3, exbind_error] at h; simp at h
      | ok rb =>
        rw [h3, exbind_ok] at h
        cases h4 : mainjsNearestE (mainjsSelNearest data) (mainjsSelWarnings data) with
        | error e => rw [h4] at h; simp at h
        | ok nt =>
          rw [h4, exbind_ok] at h
          cases h
          exact ⟨rfl, rfl⟩

/-- **C7** (amended): in the rendered summary a present distance renders as
`toFixed(1) + " km"` and an absent one as a placeholder in both files; the
durations differ from the claim in src/main.js: there a present duration
renders with one decimal, `toFixed(1) + " min"` (line 57), not rounded to
whole minutes — only src/frontend/main.js renders whole minutes via
`toFixed(0)` (lines 165-169, presence meaning `typeof === "number"`). -/
theorem C7_summary_formatting :
    (∀ data v, mainjsUpdateSummary data = .ok v →
      (∀ q, mainjsSelDistance data = .num q →
        v.distanceText = jsToFixed 1 q ++ " km") ∧
      (mainjsSelDistance data = .null → v.distanceText = "–") ∧
      (∀ q, mainjsSelDuration data = .num q →
        v.durationText = jsToFixed 1 q ++ " min") ∧
      (mainjsSelDuration data = .null → v.durationText = "–")) ∧
    (∀ r q, jsGet r "distance_km" = .num q →
      frontendDistanceText r = jsToFixed 1 q ++ " km") ∧
    (∀ r, (jsGet r "distance_km").isNum = false → frontendDistanceText r = "–") ∧
    (∀ r q, jsGet r "duration_min" = .num q →
      frontendTimeText r = jsToFixed 0 q ++ " min") ∧
    (∀ r, (jsGet r "duration_min").isNum = false → frontendTimeText r = "–") := by
  refine ⟨?_, ?_, ?_, ?_, ?_⟩
  · intro data v h
    obtain ⟨hd, hu⟩ := mainjsUpdateSummary_texts h
    refine ⟨?_, ?_, ?_, ?_⟩
    · intro q hq
      rw [hq] at hd
      simp only [fixedOrDash, Except.ok.injEq] at hd
      exact hd.symm
    · intro hq
      rw [hq] at hd
      simp only [fixedOrDash, Except.ok.injEq] at hd
      exact hd.symm
    · intro q hq
      rw [hq] at hu
      simp only [fixedOrDash, Except.ok.injEq] at hu
      exact hu.symm
    · intro hq
      rw [hq] at hu
      simp only [fixedOrDash, Except.ok.injEq] at hu
      exact hu.symm
  · intro r q hq
    simp [frontendDistanceText, hq]
  · intro r h
    unfold frontendDistanceText
    cases hq : jsGet r "distance_km" <;> simp_all [Json.isNum]
  · intro r q hq
    simp [frontendTimeText, hq]
  · intro r h
    unfold frontendTimeText
    cases hq : jsGet r "duration_min" <;> simp_all [Json.isNum]

/-- C7 counterexample: src/main.js renders a present duration of 42 minutes
as "42.0 min" (one decimal), not "42 min" as the whole-minutes claim
requires. -/
theorem C7_counterexample :
    (match mainjsUpdateSummary (Json.obj [("duration_min", Json.num 42)]) with
      | .ok v => v.durationText
      | .error _ => "") = "42.0 min" ∧
    "42.0 min" ≠ "42 min" := by
  constructor
  · rfl
  · decide

/-- Witness for C7 at concrete present values. -/
theorem C7_summary_formatting_witness :
    (⟨"27.3 km", "–", "No low-bridge conflicts detected", "Low risk",
      "ws-badge ws-badge--ok", "None on route"⟩ : SummaryViews).distanceText =
      jsToFixed 1 (273/10) ++ " km" ∧
    frontendTimeText (Json.obj [("duration_min", Json.num 42)]) =
      jsToFixed 0 42 ++ " min" :=
  ⟨(C7_summary_formatting.1 (Json.obj [("distance_km", Json.num (273/10))])
      ⟨"27.3 km", "–", "No low-bridge conflicts detected", "Low risk",
        "ws-badge ws-badge--ok", "None on route"⟩ (by rfl)).1 (273/10) rfl,
   C7_summary_formatting.2.2.2.1 (Json.obj [("duration_min", Json.num 42)]) 42 rfl⟩


theorem p003HazardE_ok {h : Json} (hw : p003HazardWT h = true) :
    ∃ o, p003HazardE h = .ok o := by
  unfold p003HazardE
  unfold p003HazardWT at hw
  cases hl : jsGet h "lat" <;> cases ho : jsGet h "lon" <;> rw [hl, ho] at hw <;>
    first
      | exact ⟨_, rfl⟩
      | exact Bool.noConfusion hw

/-- **C6** (amended): with no main geometry field, src/main.js's `updateMap`
draws nothing at all — zero polylines, zero markers, view untouched — and
never throws; part_003's `updateMap` draws no main polyline and does not
throw when the alt geometry is also absent and the hazards are well formed,
but when an `alt_geometry` is present this copy still draws one (dashed)
polyline (see the counterexample); and in src/main.js's success branch the
summary, warnings and steps views are still rendered from the same
response. -/
theorem C6_missing_geometry :
    (∀ data s, jsGet data "main_route" = .null → jsGet data "main_geometry" = .null →
      jsGet data "geometry" = .null →
      mainjsUpdateMap data s = .ok ⟨none, none, [], s.view⟩) ∧
    (∀ data m, jsGet data "geometry" = .null → jsGet data "alt_geometry" = .null →
      p003HazardsWT (jsGet data "hazards") = true →
      ∃ out, p003UpdateMap data m = .ok out ∧
        out.polylineCount = 0 ∧ out.view = m.view) ∧
    (∀ data v w st r, truthy data = true →
      mainjsUpdateSummary data = .ok v → mainjsUpdateWarnings data = .ok w →
      mainjsUpdateSteps data = .ok st → mainjsMapCore data = .ok r →
      mainjsNetBranch (.ok true data) =
        [.summary v, .warnCard w, .stepsCard st, .mapSet r.1 r.2,
         .status "Safe route generated."]) := by
  refine ⟨?_, ?_, ?_⟩
  · intro data s h1 h2 h3
    unfold mainjsUpdateMap mainjsMapCore mainjsSelMainGeom
    rw [h1, h2, h3]
    rfl
  · intro data m h1 h2 h3
    cases hh : jsGet data "hazards" with
    | arr hs =>
      rw [hh] at h3
      unfold p003HazardsWT at h3
      obtain ⟨os, hos⟩ := mapM_ok p003HazardE hs
        (fun x hx => p003HazardE_ok (List.all_eq_true.mp h3 x hx))
      refine ⟨⟨none, none, os.filterMap id, m.view⟩, ?_, rfl, rfl⟩
      unfold p003UpdateMap p003MapCore
      rw [h1, h2, hh,
        show p003Hazards (.arr hs) = (hs.mapM p003HazardE).map (List.filterMap id) from rfl,
        hos]
      rfl
    | null =>
      exact ⟨⟨none, none, [], m.view⟩,
        by unfold p003UpdateMap p003MapCore; rw [h1, h2, hh]; rfl, rfl, rfl⟩
    | bool b =>
      exact ⟨⟨none, none, [], m.view⟩,
        by unfold p003UpdateMap p003MapCore; rw [h1, h2, hh]; rfl, rfl, rfl⟩
    | num q =>
      exact ⟨⟨none, none, [], m.view⟩,
        by unfold p003UpdateMap p003MapCore; rw [h1, h2, hh]; rfl, rfl, rfl⟩
    | str s2 =>
      exact ⟨⟨none, none, [], m.view⟩,
        by unfold p003UpdateMap p003MapCore; rw [h1, h2, hh]; rfl, rfl, rfl⟩
    | obj fs =>
      exact ⟨⟨none, none, [], m.view⟩,
        by unfold p003UpdateMap p003MapCore; rw [h1, h2, hh]; rfl, rfl, rfl⟩
  · intro data v w st r ht hv hw2 hst hr
    have hall : mainjsRenderAll data =
        .ok [.summary v, .warnCard w, .stepsCard st, .mapSet r.1 r.2] := by
      unfold mainjsRenderAll mainjsRenderData
      rw [hv, exbind_ok, hw2, exbind_ok, hst, exbind_ok, hr, exbind_ok]
      rfl
    simp only [mainjsNetBranch, ht]
    rw [hall]
    simp

/-- C6 counterexample: a part_003 response with no main geometry but with
an `alt_geometry` draws one polyline, not zero. -/
theorem C6_counterexample :
    (match p003UpdateMap (Json.obj [("alt_geometry", Json.obj [("coordinates",
        Json.arr [Json.arr [Json.num 0, Json.num 0],
          Json.arr [Json.num 1, Json.num 1]])])])
        ⟨none, none, [], none⟩ with
      | .ok out => out.polylineCount
      | .error _ => 99) = 1 ∧ (1 : ℕ) ≠ 0 := by
  constructor
  · rfl
  · decide

/-- Witness for C6 at a concrete response with data but no geometry. -/
theorem C6_missing_geometry_witness :
    mainjsUpdateMap (Json.obj [("distance_km", Json.num 5)]) ⟨none, none, [], none⟩ =
      .ok ⟨none, none, [], none⟩ :=
  C6_missing_geometry.1 (Json.obj [("distance_km", Json.num 5)])
    ⟨none, none, [], none⟩ rfl rfl rfl


theorem polylineE_ok {l l2 : List JLatLng} (h : polylineE l = .ok l2) : l2 = l := by
  unfold polylineE at h
  by_cases ha : l.all (fun p => (latLngPoint p).isSome) = true
  · rw [if_pos ha] at h
    cases h
    rfl
  · rw [if_neg ha] at h
    cases h

theorem p001DrawCore_fit {mg ag : Json} {mks : List Json} {l : Layers3}
    {fit : Option Bounds} (h : p001DrawCore mg ag mks = .ok (l, fit)) :
    (l.anyDrawn = false → fit = none) ∧
    (l.anyDrawn = true →
      ∃ b0, unionBounds l.fitPoints = some b0 ∧ fit = some (b0.pad (1/5))) := by
  unfold p001DrawCore at h
  cases h1 : p001GeomLayer mg with
  | error e => rw [h1, exbind_error] at h; simp at h
  | ok mainL =>
    rw [h1, exbind_ok] at h
    cases h2 : p001GeomLayer ag with
    | error e => rw [h2, exbind_error] at h; simp at h
    | ok altL =>
      rw [h2, exbind_ok] at h
      cases h3 : p001BridgeLayer mks with
      | error e => rw [h3, exbind_error] at h; simp at h
      | ok bridgeL =>
        rw [h3, exbind_ok] at h
        by_cases hd : Layers3.anyDrawn ⟨mainL, altL, bridgeL⟩ = true
        · rw [if_pos hd] at h
          cases hub : unionBounds (Layers3.fitPoints ⟨mainL, altL, bridgeL⟩) with
          | none => rw [hub] at h; exact Except.noConfusion h
          | some b0 =>
            rw [hub] at h
            have hpair : ((⟨mainL, altL, bridgeL⟩ : Layers3),
                some (b0.pad (1/5))) = (l, fit) := Except.ok.inj h
            rw [Prod.mk.injEq] at hpair
            obtain ⟨hl, hf⟩ := hpair
            subst hl
            exact ⟨fun hfalse => absurd hd (by simp [hfalse]),
              fun _ => ⟨b0, hub, hf.symm⟩⟩
        · rw [if_neg hd] at h
          have hpair : ((⟨mainL, altL, bridgeL⟩ : Layers3),
              (none : Option Bounds)) = (l, fit) := Except.ok.inj h
          rw [Prod.mk.injEq] at hpair
          obtain ⟨hl, hf⟩ := hpair
          subst hl
          exact ⟨fun _ => hf.symm,
            fun htrue => absurd htrue hd⟩

theorem mainjsMapCore_fit {data : Json} {l : MapLayers} {fit : Option Bounds}
    (h : mainjsMapCore data = .ok (l, fit)) :
    (l.mainRoute = none → l.altRoute = none ∧ l.bridges = [] ∧ fit = none) ∧
    (∀ pts, l.mainRoute = some pts →
      ∃ b, fit = some b ∧ unionBounds (pts.filterMap latLngPoint) = some b) := by
  unfold mainjsMapCore at h
  by_cases hc : ¬ truthy (mainjsSelMainGeom data) = true ∨
      ¬ (mainjsSelMainGeom data).isArr = true
  · rw [if_pos hc] at h
    have hpair : ((⟨none, none, []⟩ : MapLayers), (none : Option Bounds)) =
        (l, fit) := Except.ok.inj h
    rw [Prod.mk.injEq] at hpair
    obtain ⟨hl, hf⟩ := hpair
    subst hl
    exact ⟨fun _ => ⟨rfl, rfl, hf.symm⟩, fun pts hpts => by cases hpts⟩
  · rw [if_neg hc] at h
    cases h1 : polylineE (coordsToLatLngs (mainjsSelMainGeom data)) with
    | error e => rw [h1, exbind_error] at h; simp at h
    | ok mainL =>
      rw [h1, exbind_ok] at h
      have hml : mainL = coordsToLatLngs (mainjsSelMainGeom data) := polylineE_ok h1
      subst hml
      cases h2 : (if truthy (mainjsSelAltGeom data) = true ∧
          (mainjsSelAltGeom data).isArr = true then
            (polylineE (coordsToLatLngs (mainjsSelAltGeom data))).map some
          else pure none : Except JsErr (Option (List JLatLng))) with
      | error e => rw [h2, exbind_error] at h; simp at h
      | ok altL =>
        rw [h2, exbind_ok] at h
        cases h3 : mainjsMarkersE (mainjsSelWarnings data) with
        | error e => rw [h3, exbind_error] at h; simp at h
        | ok marks =>
          rw [h3, exbind_ok] at h
          cases hub : unionBounds ((coordsToLatLngs
              (mainjsSelMainGeom data)).filterMap latLngPoint) with
          | none => rw [hub] at h; exact Except.noConfusion h
          | some b =>
            rw [hub] at h
            have hpair : ((⟨some (coordsToLatLngs (mainjsSelMainGeom data)),
                altL, marks⟩ : MapLayers), some b) = (l, fit) := Except.ok.inj h
            rw [Prod.mk.injEq] at hpair
            obtain ⟨hl, hf⟩ := hpair
            subst hl
            refine ⟨(fun hnone => by cases hnone), fun pts hpts => ?_⟩
            have hpts2 := Option.some.inj hpts
            subst hpts2
            exact ⟨b, hf.symm, hub⟩

/-- **C8** (amended): in part_001's `drawRouteOnMap` the view is fitted to
(the 0.2-padded bounds of) the union of everything drawn in that call —
every point of the main route, alt route and bridge markers lies inside the
fitted bounds — and the view is untouched when nothing was drawn; in
src/main.js's `updateMap` (line 219) the fitted bounds are computed from
the main route's points alone, ignoring the alt route and the bridge
markers (see the counterexample), with the view likewise untouched when
nothing was drawn. -/
theorem C8_fit_bounds :
    (∀ mg ag mks m out, p001DrawRouteOnMap mg ag mks m = .ok out →
      (Layers3.anyDrawn ⟨out.mainRoute, out.altRoute, out.bridges⟩ = false →
        out.view = m.view) ∧
      (Layers3.anyDrawn ⟨out.mainRoute, out.altRoute, out.bridges⟩ = true →
        ∃ b, out.view = some b ∧
          ∀ p ∈ Layers3.fitPoints ⟨out.mainRoute, out.altRoute, out.bridges⟩,
            b.holds p = true)) ∧
    (∀ data s out, mainjsUpdateMap data s = .ok out →
      (out.mainRoute = none →
        out.altRoute = none ∧ out.bridges = [] ∧ out.view = s.view) ∧
      (∀ pts, out.mainRoute = some pts →
        ∃ b, out.view = some b ∧
          unionBounds (pts.filterMap latLngPoint) = some b)) := by
  constructor
  · intro mg ag mks m out h
    unfold p001DrawRouteOnMap at h
    cases hcore : p001DrawCore mg ag mks with
    | error e => rw [hcore] at h; exact Except.noConfusion h
    | ok r =>
      rw [hcore] at h
      have hout := Except.ok.inj h
      subst hout
      obtain ⟨l, fit⟩ := r
      obtain ⟨hnone, hsome⟩ := p001DrawCore_fit hcore
      constructor
      · intro hfalse
        rw [hnone hfalse]
      · intro htrue
        obtain ⟨b0, hub, hf⟩ := hsome htrue
        rw [hf]
        refine ⟨b0.pad (1/5), rfl, fun p hp => ?_⟩
        exact pad_holds (unionBounds_wf hub) (by norm_num)
          (unionBounds_holds hub p hp)
  · intro data s out h
    unfold mainjsUpdateMap at h
    cases hcore : mainjsMapCore data with
    | error e => rw [hcore] at h; exact Except.noConfusion h
    | ok r =>
      rw [hcore] at h
      have hout := Except.ok.inj h
      subst hout
      obtain ⟨l, fit⟩ := r
      obtain ⟨hnone, hsome⟩ := mainjsMapCore_fit hcore
      constructor
      · intro hn
        obtain ⟨ha, hb, hf⟩ := hnone hn
        rw [hf]
        exact ⟨ha, hb, rfl⟩
      · intro pts hpts
        obtain ⟨b, hf, hub⟩ := hsome pts hpts
        rw [hf]
        exact ⟨b, rfl, hub⟩

/-- C8 counterexample: in src/main.js, with a main route near the origin
and an alt route near latitude 10, the fitted bounds are those of the main
route only and exclude the drawn alt-route point (10, 10). -/
theorem C8_counterexample :
    (match mainjsUpdateMap (Json.obj [
        ("geometry", Json.arr [Json.arr [Json.num 0, Json.num 0],
          Json.arr [Json.num 1, Json.num 1]]),
        ("alt_geometry", Json.arr [Json.arr [Json.num 10, Json.num 10],
          Json.arr [Json.num 11, Json.num 11]])]) ⟨none, none, [], none⟩ with
      | .ok out =>
        (match out.view, out.altRoute with
         | some b, some alt =>
           ((alt.filterMap latLngPoint).contains ((10 : ℚ), (10 : ℚ)),
             b.holds (10, 10))
         | _, _ => (false, true))
      | .error _ => (false, true)) = (true, false) := by
  decide

/-- Witness for C8 at a concrete part_001 draw call: the fitted view bounds
contain the drawn point (0, 0). -/
theorem C8_fit_bounds_witness :
    ((Bounds.mk 0 1 0 1).pad (1/5)).holds (0, 0) = true := by
  have h : p001DrawRouteOnMap
      (Json.obj [("type", Json.str "LineString"), ("coordinates",
        Json.arr [Json.arr [Json.num 0, Json.num 0],
          Json.arr [Json.num 1, Json.num 1]])])
      Json.null [] ⟨none, none, none, none⟩ =
      .ok ⟨some [(Json.num 0, Json.num 0), (Json.num 1, Json.num 1)], none, none,
        some ((Bounds.mk 0 1 0 1).pad (1/5))⟩ := by
    rfl
  obtain ⟨b, hb, hp⟩ := (C8_fit_bounds.1 _ _ _ _ _ h).2 (by decide)
  have hb2 : some ((Bounds.mk 0 1 0 1).pad (1/5)) = some b := hb
  have hb3 := Option.some.inj hb2
  subst hb3
  exact hp (0, 0) (by decide)


/-! ## C1 — totality of the part_001 response-handling pipeline -/

theorem truthyFixed_ok (d : ℕ) (j : Json) (sfx : String)
    (h : okTruthyNum j = true) : ∃ s, truthyFixed d j sfx = .ok s := by
  unfold truthyFixed
  by_cases ht : truthy j = true
  · cases j with
    | num q => exact ⟨_, by rw [if_pos ht]⟩
    | null => exact Bool.noConfusion ht
    | bool b =>
      replace h : (! truthy (Json.bool b)) = true := h
      rw [ht] at h; exact Bool.noConfusion h
    | str s =>
      replace h : (! truthy (Json.str s)) = true := h
      rw [ht] at h; exact Bool.noConfusion h
    | arr xs =>
      replace h : (! truthy (Json.arr xs)) = true := h
      rw [ht] at h; exact Bool.noConfusion h
    | obj fs =>
      replace h : (! truthy (Json.obj fs)) = true := h
      rw [ht] at h; exact Bool.noConfusion h
  · exact ⟨"–", by rw [if_neg ht]⟩

theorem p001NearestE_ok (risk : Json) (h : p001NearestWT risk = true) :
    ∃ s, p001NearestE risk = .ok s := by
  unfold p001NearestWT at h
  unfold p001NearestE
  cases hh : jsGet risk "nearest_bridge_height_m" with
  | null => exact ⟨"–", rfl⟩
  | num q =>
    rw [hh] at h
    replace h : okNullNum (jsGet risk "nearest_bridge_distance_m") = true := h
    cases hd : jsGet risk "nearest_bridge_distance_m" with
    | null => exact ⟨_, rfl⟩
    | num d => exact ⟨_, rfl⟩
    | bool b => rw [hd] at h; exact Bool.noConfusion h
    | str s => rw [hd] at h; exact Bool.noConfusion h
    | arr xs => rw [hd] at h; exact Bool.noConfusion h
    | obj fs => rw [hd] at h; exact Bool.noConfusion h
  | bool b => rw [hh] at h; exact Bool.noConfusion h
  | str s => rw [hh] at h; exact Bool.noConfusion h
  | arr xs => rw [hh] at h; exact Bool.noConfusion h
  | obj fs => rw [hh] at h; exact Bool.noConfusion h

theorem p001LevelE_ok (risk : Json)
    (h : (jsOr (jsGet risk "level")
      (jsOr (jsGet risk "risk_level") (.str "unknown"))).isStr = true) :
    ∃ s, p001LevelE risk = .ok s := by
  unfold p001LevelE
  cases hl : jsOr (jsGet risk "level") (jsOr (jsGet risk "risk_level") (.str "unknown")) with
  | str s => exact ⟨_, rfl⟩
  | null => rw [hl] at h; exact Bool.noConfusion h
  | bool b => rw [hl] at h; exact Bool.noConfusion h
  | num q => rw [hl] at h; exact Bool.noConfusion h
  | arr xs => rw [hl] at h; exact Bool.noConfusion h
  | obj fs => rw [hl] at h; exact Bool.noConfusion h

theorem p001WarnItemE_ok (w : Json) (h : p001WarnWT w = true) :
    ∃ i, p001WarnItemE w = .ok i := by
  unfold p001WarnWT at h
  unfold p001WarnItemE
  cases hl : jsOr (jsGet w "level") (.str "") with
  | str s => exact ⟨_, rfl⟩
  | null => rw [hl] at h; exact Bool.noConfusion h
  | bool b => rw [hl] at h; exact Bool.noConfusion h
  | num q => rw [hl] at h; exact Bool.noConfusion h
  | arr xs => rw [hl] at h; exact Bool.noConfusion h
  | obj fs => rw [hl] at h; exact Bool.noConfusion h

theorem p001WarningsE_ok (w : Json) (h : p001WarningsWT w = true) :
    ∃ o, p001WarningsE w = .ok o := by
  unfold p001WarningsE
  cases w with
  | arr ws =>
    by_cases hg : jsLenGtZero (.arr ws) = true
    · rw [if_pos hg]
      have hall : ws.all p001WarnWT = true := by simpa [p001WarningsWT] using h
      obtain ⟨items, hitems⟩ := mapM_ok p001WarnItemE ws
        (fun a ha => p001WarnItemE_ok a (List.all_eq_true.mp hall a ha))
      refine ⟨some items, ?_⟩
      show (ws.mapM p001WarnItemE).map some = Except.ok (some items)
      rw [hitems]
      rfl
    · rw [if_neg hg]
      exact ⟨none, rfl⟩
  | str s =>
    have hg : jsLenGtZero (.str s) = false := by simpa [p001WarningsWT] using h
    exact ⟨none, by rw [if_neg (by simp [hg])]⟩
  | obj fs =>
    have hg : jsLenGtZero (.obj fs) = false := by simpa [p001WarningsWT] using h
    exact ⟨none, by rw [if_neg (by simp [hg])]⟩
  | null => exact ⟨none, by rw [if_neg (fun hc => Bool.noConfusion hc)]⟩
  | bool b => exact ⟨none, by rw [if_neg (fun hc => Bool.noConfusion hc)]⟩
  | num q => exact ⟨none, by rw [if_neg (fun hc => Bool.noConfusion hc)]⟩

theorem p001StepsE_ok (st : Json) (h : p001StepsWT st = true) :
    ∃ o, p001StepsE st = .ok o := by
  unfold p001StepsE
  cases st with
  | arr ss =>
    by_cases hg : jsLenGtZero (.arr ss) = true
    · rw [if_pos hg]
      exact ⟨_, rfl⟩
    · rw [if_neg hg]
      exact ⟨none, rfl⟩
  | str s =>
    have hg : jsLenGtZero (.str s) = false := by simpa [p001StepsWT] using h
    exact ⟨none, by rw [if_neg (by simp [hg])]⟩
  | obj fs =>
    have hg : jsLenGtZero (.obj fs) = false := by simpa [p001StepsWT] using h
    exact ⟨none, by rw [if_neg (by simp [hg])]⟩
  | null => exact ⟨none, by rw [if_neg (fun hc => Bool.noConfusion hc)]⟩
  | bool b => exact ⟨none, by rw [if_neg (fun hc => Bool.noConfusion hc)]⟩
  | num q => exact ⟨none, by rw [if_neg (fun hc => Bool.noConfusion hc)]⟩

theorem filterMap_isSome_length {α β : Type} (f : α → Option β) :
    ∀ (l : List α), (l.all fun a => (f a).isSome) = true →
      (l.filterMap f).length = l.length := by
  intro l
  induction l with
  | nil => intro _; rfl
  | cons a t ih =>
    intro h
    simp only [List.all_cons, Bool.and_eq_true] at h
    obtain ⟨hb, hrest⟩ := h
    obtain ⟨bb, hbb⟩ := Option.isSome_iff_exists.mp hb
    simp [List.filterMap_cons, hbb, ih hrest]

theorem p001GeomLayer_ok (g : Json) (h : geomWT g = true) :
    ∃ o, p001GeomLayer g = .ok o ∧
      ∀ pts, o = some pts → 0 < (pts.filterMap latLngPoint).length := by
  unfold p001GeomLayer
  by_cases hls : isLineString g = true
  · rw [if_pos hls]
    have hall : (geojsonCoordsToLatLngs (jsGet g "coordinates")).all
        (fun p => (latLngPoint p).isSome) = true := by
      unfold geomWT at h
      rw [hls] at h
      simpa using h
    by_cases hlen : 0 < (geojsonCoordsToLatLngs (jsGet g "coordinates")).length
    · rw [if_pos hlen]
      unfold polylineE
      rw [if_pos hall]
      refine ⟨some (geojsonCoordsToLatLngs (jsGet g "coordinates")), rfl, ?_⟩
      intro pts hpts
      have he := Option.some.inj hpts
      subst he
      rw [filterMap_isSome_length latLngPoint _ hall]
      exact hlen
    · rw [if_neg hlen]
      exact ⟨none, rfl, fun pts hpts => Option.noConfusion hpts⟩
  · rw [if_neg hls]
    exact ⟨none, rfl, fun pts hpts => Option.noConfusion hpts⟩

theorem p001MarkerE_ok (b : Json) (h : p001MarkerWT b = true) :
    ∃ mk, p001MarkerE b = .ok (some mk) := by
  unfold p001MarkerWT at h
  simp only [Bool.and_eq_true] at h
  obtain ⟨⟨⟨hlat, hlon⟩, hrisk⟩, hht⟩ := h
  unfold p001MarkerE
  cases hla : jsNullish (jsGet b "lat") (jsGet b "latitude") with
  | num la =>
    cases hlo : jsNullish (jsGet b "lon") (jsNullish (jsGet b "lng") (jsGet b "longitude")) with
    | num lo =>
      cases hr : jsOr (jsGet b "risk_level") (jsOr (jsGet b "level") (.str "low")) with
      | str rs =>
        by_cases hhm : truthy (jsGet b "height_m") = true
        · rw [hhm] at hht
          replace hht : (jsGet b "height_m").isNum = true := by simpa using hht
          cases hq : jsGet b "height_m" with
          | num q =>
            rw [hq] at hhm
            rw [if_pos hhm]
            exact ⟨_, rfl⟩
          | null => rw [hq] at hht; exact Bool.noConfusion hht
          | bool b2 => rw [hq] at hht; exact Bool.noConfusion hht
          | str s => rw [hq] at hht; exact Bool.noConfusion hht
          | arr xs => rw [hq] at hht; exact Bool.noConfusion hht
          | obj fs => rw [hq] at hht; exact Bool.noConfusion hht
        · rw [if_neg hhm]; exact ⟨_, rfl⟩
      | null => rw [hr] at hrisk; exact Bool.noConfusion hrisk
      | bool b2 => rw [hr] at hrisk; exact Bool.noConfusion hrisk
      | num q => rw [hr] at hrisk; exact Bool.noConfusion hrisk
      | arr xs => rw [hr] at hrisk; exact Bool.noConfusion hrisk
      | obj fs => rw [hr] at hrisk; exact Bool.noConfusion hrisk
    | null => rw [hlo] at hlon; exact Bool.noConfusion hlon
    | bool b2 => rw [hlo] at hlon; exact Bool.noConfusion hlon
    | str s => rw [hlo] at hlon; exact Bool.noConfusion hlon
    | arr xs => rw [hlo] at hlon; exact Bool.noConfusion hlon
    | obj fs => rw [hlo] at hlon; exact Bool.noConfusion hlon
  | null => rw [hla] at hlat; exact Bool.noConfusion hlat
  | bool b2 => rw [hla] at hlat; exact Bool.noConfusion hlat
  | str s => rw [hla] at hlat; exact Bool.noConfusion hlat
  | arr xs => rw [hla] at hlat; exact Bool.noConfusion hlat
  | obj fs => rw [hla] at hlat; exact Bool.noConfusion hlat

theorem p001BridgeLayer_ok (ms : List Json) (h : ms.all p001MarkerWT = true) :
    ∃ o, p001BridgeLayer ms = .ok o ∧ ∀ mks, o = some mks → 0 < mks.length := by
  unfold p001BridgeLayer
  by_cases hlen : 0 < ms.length
  · rw [if_pos hlen]
    obtain ⟨bs, hbs, hlen2⟩ := mapM_ok_some p001MarkerE ms
      (fun a ha => p001MarkerE_ok a (List.all_eq_true.mp h a ha))
    refine ⟨some (bs.filterMap id), ?_, ?_⟩
    · rw [hbs]; rfl
    · intro mks hmks
      have he := Option.some.inj hmks
      subst he
      rw [hlen2]
      exact hlen
  · rw [if_neg hlen]
    exact ⟨none, rfl, fun mks hmks => Option.noConfusion hmks⟩

theorem unionBounds_pos {l : List (ℚ × ℚ)} (h : 0 < l.length) :
    ∃ b, unionBounds l = some b := by
  cases l with
  | nil => simp at h
  | cons p t => exact unionBounds_cons_some p t

theorem fitPoints_pos (om oa : Option (List JLatLng)) (ob : Option (List BridgeMark))
    (hm : ∀ pts, om = some pts → 0 < (pts.filterMap latLngPoint).length)
    (ha : ∀ pts, oa = some pts → 0 < (pts.filterMap latLngPoint).length)
    (hb : ∀ mks, ob = some mks → 0 < mks.length)
    (hd : Layers3.anyDrawn ⟨om, oa, ob⟩ = true) :
    0 < (Layers3.fitPoints ⟨om, oa, ob⟩).length := by
  cases om with
  | some pts =>
    have h5 := hm pts rfl
    simp only [Layers3.fitPoints, List.length_append]
    omega
  | none =>
    cases oa with
    | some pts =>
      have h5 := ha pts rfl
      simp only [Layers3.fitPoints, List.length_append]
      omega
    | none =>
      cases ob with
      | some mks =>
        have h5 := hb mks rfl
        simp only [Layers3.fitPoints, List.length_append, List.length_map]
        omega
      | none => simp [Layers3.anyDrawn] at hd

theorem p001DrawCore_ok (mg ag : Json) (mks : List Json)
    (h1 : geomWT mg = true) (h2 : geomWT ag = true)
    (h3 : mks.all p001MarkerWT = true) :
    ∃ out, p001DrawCore mg ag mks = .ok out := by
  obtain ⟨om, hom, hfm⟩ := p001GeomLayer_ok mg h1
  obtain ⟨oa, hoa, hfa⟩ := p001GeomLayer_ok ag h2
  obtain ⟨ob, hob, hfb⟩ := p001BridgeLayer_ok mks h3
  unfold p001DrawCore
  rw [hom, exbind_ok, hoa, exbind_ok, hob, exbind_ok]
  by_cases hd : Layers3.anyDrawn ⟨om, oa, ob⟩ = true
  · rw [if_pos hd]
    obtain ⟨b, hub⟩ := unionBounds_pos (fitPoints_pos om oa ob hfm hfa hfb hd)
    rw [hub]
    exact ⟨_, rfl⟩
  · rw [if_neg hd]
    exact ⟨_, rfl⟩

theorem p001Handle_total (data : Json) (st : Views001 × Map3)
    (h : p001WellTyped data = true) :
    ∃ out, p001HandleRouteResponse data st = .ok out := by
  unfold p001WellTyped at h
  simp only [Bool.and_eq_true] at h
  obtain ⟨⟨⟨⟨⟨⟨⟨⟨hobj, hdist⟩, hnear⟩, hlev⟩, hwarn⟩, hsteps⟩, hgm⟩, hga⟩, hbm⟩ := h
  have htr : truthy data = true := by
    cases data with
    | obj fs => rfl
    | null => exact Bool.noConfusion hobj
    | bool b => exact Bool.noConfusion hobj
    | num q => exact Bool.noConfusion hobj
    | str s => exact Bool.noConfusion hobj
    | arr xs => exact Bool.noConfusion hobj
  unfold p001HandleRouteResponse
  rw [if_neg (not_not_intro htr)]
  obtain ⟨s1, h1⟩ := truthyFixed_ok 1 (p001SelDistance data) " km" hdist
  obtain ⟨s2, h2⟩ := p001NearestE_ok (p001SelRisk data) hnear
  obtain ⟨s3, h3⟩ := p001LevelE_ok (p001SelRisk data) hlev
  obtain ⟨o4, h4⟩ := p001WarningsE_ok (p001SelWarnings data) hwarn
  obtain ⟨o5, h5⟩ := p001StepsE_ok (p001SelSteps data) hsteps
  obtain ⟨dc, h6⟩ := p001DrawCore_ok (extractMainGeometry data) (extractAltGeometry data)
    (extractBridgeMarkers data) hgm hga hbm
  rw [h1, exbind_ok, h2, exbind_ok, h3, exbind_ok, h4, exbind_ok, h5, exbind_ok]
  unfold p001DrawRouteOnMap
  rw [h6]
  exact ⟨_, rfl⟩

theorem p001Handle_empty (v : Views001) (m : Map3) :
    p001HandleRouteResponse (.obj []) (v, m) =
      .ok (⟨"–", "–", "No bridge data", "–", "No data", "ws-badge ws-badge--muted",
        none, none, true, false⟩, ⟨none, none, none, m.view⟩) := by
  rfl

/-- C1: the part_001 response-handling pipeline (summary, warnings, steps,
map extraction fused in `handleRouteResponse`) is total on well-typed
responses — where the consumed fields, when present, carry the consumed
types and no non-array warnings/steps value passes its `length > 0`
guard — and on the empty object `\x7b\x7d` it produces the default views: every
scalar renders its placeholder, the risk badge falls back to the
"unknown"-level "No data" / muted state, the warnings and steps cards stay
hidden (empty), no layer is drawn and the map view is untouched.  (The
spec's unconditional totality over arbitrary JSON objects is refuted by
`C1_counterexample`: an ill-typed field such as a string `distance_km`, or
an object-valued `warnings` carrying a positive `length` field, throws a
TypeError out of the pipeline.) -/
theorem C1_normalize_total :
    (∀ (data : Json) (st : Views001 × Map3), p001WellTyped data = true →
      ∃ out, p001HandleRouteResponse data st = .ok out) ∧
    (∀ (v : Views001) (m : Map3),
      p001HandleRouteResponse (.obj []) (v, m) =
        .ok (⟨"–", "–", "No bridge data", "–", "No data", "ws-badge ws-badge--muted",
          none, none, true, false⟩, ⟨none, none, none, m.view⟩)) :=
  ⟨p001Handle_total, p001Handle_empty⟩

/-- Witness for C1: the well-typedness hypothesis is satisfiable (by the
empty object, among others) and the theorem applies there. -/
theorem C1_normalize_total_witness :
    p001WellTyped (.obj []) = true ∧
    ∃ out, p001HandleRouteResponse (.obj [])
      (⟨"", "", "", "", "", "", none, none, false, false⟩,
        ⟨none, none, none, none⟩) = .ok out :=
  ⟨by decide, C1_normalize_total.1 _ _ (by decide)⟩

/-- Counterexample for C1 as stated: on `\x7b"distance_km": "x"\x7d` — a JSON
object — part_001's `handleRouteResponse` throws (`.toFixed` on a truthy
non-number), and on `\x7b"warnings": \x7b"length": 5\x7d\x7d` it throws too (the
`warnings.length > 0` guard reads the object's `length` field, passes, and
`warnings.forEach` is not a function); neither object is well-typed, and
normalisation is not total over arbitrary JSON objects. -/
theorem C1_counterexample :
    p001HandleRouteResponse (.obj [("distance_km", .str "x")])
      (⟨"", "", "", "", "", "", none, none, false, false⟩,
        ⟨none, none, none, none⟩) = .error .typeError ∧
    p001HandleRouteResponse (.obj [("warnings", .obj [("length", .num 5)])])
      (⟨"", "", "", "", "", "", none, none, false, false⟩,
        ⟨none, none, none, none⟩) = .error .typeError ∧
    p001WellTyped (.obj [("warnings", .obj [("length", .num 5)])]) = false := by
  exact ⟨rfl, rfl, by decide⟩

end
